import Mathlib

/-!
Shallow embedding of `county_adapters.py` (Site-Data-Development).

The module performs property lookups against county ArcGIS REST endpoints.
Each adapter issues a sequence of HTTP GET requests; the HTTP layer is
modelled as an oracle `Http : Nat → Request → HttpResult` giving the
response to the i-th request issued by a call (indexing by call order keeps
the model general: an adversarial server may answer the same request
differently on different calls).

Python dictionaries are modelled as association lists `List (String × PyVal)`;
the adapters' return value (a Python `Dict`) is modelled the same way, and
the one place where an exception can escape an adapter (the Pinellas acreage
parse, which runs outside the `try` blocks) is modelled with `Except PyExc`.
-/

/-- A Python value as it appears in parsed JSON attribute maps and in the
returned dictionaries: strings, ints, floats (as rationals), booleans, None. -/
inductive PyVal where
  | str (s : String)
  | int (n : Int)
  | float (q : Rat)
  | bool (b : Bool)
  | none
deriving DecidableEq

/-- Python truthiness for the values above: empty string, 0, 0.0, False and
None are falsy. -/
def PyVal.truthy : PyVal → Bool
  | .str s => !(s == "")
  | .int n => !(n == 0)
  | .float q => !(q == 0)
  | .bool b => b
  | .none => false

/-- Python `a or b`: `a` if truthy, else `b`. -/
def pyOr (a b : PyVal) : PyVal := if a.truthy then a else b

/-- An attribute map / returned dictionary: ordered key-value pairs. -/
abbrev AttrMap := List (String × PyVal)

/-- A returned Python dict (same representation as an attribute map). -/
abbrev Dict := List (String × PyVal)

/-- First value bound to key `k`, if any (dict keys are unique in the source,
so first-match lookup is faithful). -/
def findKey (m : AttrMap) (k : String) : Option PyVal :=
  match m with
  | [] => Option.none
  | (k2, v) :: rest => if k2 = k then some v else findKey rest k

/-- Python `m.get(k, d)`: the stored value when the key is present (even if
falsy), otherwise the default. -/
def getAttr (m : AttrMap) (k : String) (d : PyVal) : PyVal :=
  (findKey m k).getD d

/-- A GIS feature: `{"attributes": {...}}`. -/
structure Feature where
  attributes : AttrMap
deriving DecidableEq

/-- One group inside a `queryRelatedRecords` response. -/
structure RelGroup where
  relatedRecords : Option (List Feature)
deriving DecidableEq

/-- The parsed JSON body of a response: a dict that may carry a `features`
key (plain query) and/or a `relatedRecordGroups` key (related-records query).
An absent key models `data.get(...)` returning `None`. -/
structure JsonDoc where
  features : Option (List Feature)
  relatedRecordGroups : Option (List RelGroup)
deriving DecidableEq

deriving instance DecidableEq for Except

/-- Outcome of one `requests.get` call: either the call raised (network
error, timeout, ...) with message `msg`, or a response arrived with a status
code and a body whose JSON decoding either fails (with a message, modelling
`response.json()` raising `ValueError`) or yields a document. -/
inductive HttpResult where
  | exn (msg : String)
  | resp (status : Nat) (body : Except String JsonDoc)
deriving DecidableEq

/-- An HTTP GET request: url plus query parameters. -/
structure Request where
  url : String
  params : List (String × String)
deriving DecidableEq

/-- The HTTP layer: response to the i-th request issued during one call. -/
def Http := Nat → Request → HttpResult

/-- The exceptions the Pinellas acreage-mapping line can raise:
`IndexError` from `[0]` on an empty split, `ValueError` from `float()` on a
non-numeric token, `AttributeError` from `.split()` on a non-string. -/
inductive PyExc where
  | indexError
  | valueError
  | attributeError
deriving DecidableEq

/-- `requests.Response.raise_for_status` raises exactly for 4xx/5xx. -/
def raisesStatus (st : Nat) : Bool := decide (400 ≤ st) && decide (st < 600)

/-- Models `str(e)` for the `HTTPError` raised by `raise_for_status`. -/
def statusMsg (st : Nat) : String := toString st ++ " Error for url"

/-- The `where`-clause the adapters build by naive interpolation:
`f"{field}='{value}'"`. -/
def whereEq (field value : String) : String := field ++ "='" ++ value ++ "'"

/-- The fixed query parameters every plain query uses. -/
def queryParams (w : String) : List (String × String) :=
  [("where", w), ("outFields", "*"), ("returnGeometry", "false"), ("f", "json")]

/-- A plain query request against `url` with where-clause `w`. -/
def mkQuery (url w : String) : Request := ⟨url, queryParams w⟩

/-- Request for one `(field, value)` candidate against `base`. -/
def attemptReq (base : String) (fv : String × String) : Request :=
  mkQuery base (whereEq fv.1 fv.2)

/-- Python `s.replace(c, '')` for a single-character pattern: drop every
occurrence of `c`. -/
def removeChar (s : String) (c : Char) : String :=
  ⟨s.data.filter (fun a => !(a == c))⟩

/-- Python `s.strip()`: drop leading and trailing whitespace. -/
def pyStrip (s : String) : String :=
  ⟨((s.data.dropWhile Char.isWhitespace).reverse.dropWhile Char.isWhitespace).reverse⟩

/-- One step of Python `str.title()`: uppercase a letter that follows a
non-letter, lowercase a letter that follows a letter. -/
def titleAux : Bool → List Char → List Char
  | _, [] => []
  | prevAlpha, c :: cs =>
      (if prevAlpha then c.toLower else c.toUpper) :: titleAux c.isAlpha cs

/-- Python `s.title()` (ASCII behaviour, which covers county names). -/
def pyTitle (s : String) : String := ⟨titleAux false s.data⟩

/-- Python `s.split()` with no arguments: split on whitespace runs,
discarding empty pieces. `cur` accumulates the current word reversed. -/
def pySplitGo : List Char → List Char → List String
  | [], cur => if cur.isEmpty then [] else [⟨cur.reverse⟩]
  | c :: cs, cur =>
      if c.isWhitespace then
        if cur.isEmpty then pySplitGo cs [] else (⟨cur.reverse⟩ : String) :: pySplitGo cs []
      else pySplitGo cs (c :: cur)

/-- Python `s.split()`. -/
def pySplit (s : String) : List String := pySplitGo s.data []

/-- Numeric value of a digit run. -/
def digitsVal (l : List Char) : Nat :=
  l.foldl (fun a c => a * 10 + (c.toNat - 48)) 0

/-- Parse the optional exponent suffix of a Python float literal
(`e`/`E`, optional sign, at least one digit, nothing after). -/
def parseExp : List Char → Option Int
  | [] => some 0
  | c :: t =>
      if c = 'e' ∨ c = 'E' then
        let (es, t1) : Int × List Char :=
          match t with
          | '+' :: u => (1, u)
          | '-' :: u => (-1, u)
          | _ => (1, t)
        let ds := t1.takeWhile Char.isDigit
        if !ds.isEmpty ∧ (t1.dropWhile Char.isDigit).isEmpty
        then some (es * (digitsVal ds : Int)) else Option.none
      else Option.none

/-- The rational `sgn * (ip + fp / 10^fpLen) * 10^e`, built with `mkRat` so
that it evaluates by kernel reduction. -/
def ratOfParts (sgn : Int) (ip fp fpLen : Nat) (e : Int) : Rat :=
  let base : Int := sgn * (Int.ofNat (ip * 10 ^ fpLen + fp))
  if 0 ≤ e then mkRat (base * Int.ofNat (10 ^ e.toNat)) (10 ^ fpLen)
  else mkRat base (10 ^ fpLen * 10 ^ (-e).toNat)

/-- Python `float(s)` restricted to finite decimal literals (optional sign,
digits with at most one decimal point, optional exponent); `inf`, `nan` and
digit underscores are not modelled (they never arise in the claims).
Returns `none` where `float()` raises `ValueError`. -/
def pyFloat (s : String) : Option Rat :=
  let l0 := s.data
  let (sgn, l1) : Int × List Char :=
    match l0 with
    | '+' :: t => (1, t)
    | '-' :: t => (-1, t)
    | _ => (1, l0)
  let ip := l1.takeWhile Char.isDigit
  let r1 := l1.dropWhile Char.isDigit
  match r1 with
  | '.' :: r2 =>
      let fp := r2.takeWhile Char.isDigit
      let r3 := r2.dropWhile Char.isDigit
      if ip.isEmpty ∧ fp.isEmpty then Option.none
      else (parseExp r3).map (fun e => ratOfParts sgn (digitsVal ip) (digitsVal fp) fp.length e)
  | _ =>
      if ip.isEmpty then Option.none
      else (parseExp r1).map (fun e => ratOfParts sgn (digitsVal ip) 0 0 e)

/-- The Pinellas acreage-mapping expression
`float(v.split()[0] or 0)` applied to the raw stated-area value `v`.
It runs outside the try blocks, so its exceptions escape:
`IndexError` when `v` is a string whose split is empty, `ValueError` when the
leading token is not a float literal, `AttributeError` when `v` is not a
string. (A token produced by `split()` is never empty, so the `or 0` branch
is unreachable there.) -/
def statedAcres (v : PyVal) : Except PyExc Rat :=
  match v with
  | .str s =>
      match pySplit s with
      | [] => .error .indexError
      | t :: _ =>
          match pyFloat t with
          | some q => .ok q
          | Option.none => .error .valueError
  | _ => .error .attributeError

/-- A failure dict `{'success': False, 'error': m}`. -/
def failDict (m : String) : Dict :=
  [("success", .bool false), ("error", .str m)]

/-- The `except`-branch result `{'success': False, 'error': f'API Error: {e}'}`. -/
def apiErrorDict (m : String) : Dict := failDict ("API Error: " ++ m)

/-- The Hillsborough folio normalization: remove dashes, spaces and dots. -/
def hillsNormalize (pid : String) : String :=
  removeChar (removeChar (removeChar pid '-') ' ') '.'

/-- The Pasco identifier normalization: remove dashes and spaces. -/
def pascoNormalize (pid : String) : String :=
  removeChar (removeChar pid '-') ' '

def hillsboroughUrl : String :=
  "https://www25.swfwmd.state.fl.us/arcgis12/rest/services/BaseVector/parcel_search/MapServer/7/query"

def pinellasParcelUrl : String :=
  "https://egis.pinellas.gov/gis/rest/services/Accela/AccelaAddressParcel/MapServer/1/query"

def pinellasRelatedUrl : String :=
  "https://egis.pinellas.gov/gis/rest/services/Accela/AccelaAddressParcel/MapServer/1/queryRelatedRecords"

def pascoUrl : String :=
  "https://www25.swfwmd.state.fl.us/arcgis12/rest/services/BaseVector/parcel_search/MapServer/12/query"

def manateeUrl : String :=
  "https://www.mymanatee.org/gisits/rest/services/opendata/Planning/MapServer/22/query"

/-- The Hillsborough raw-attributes → returned-dict mapping (source lines
62-97), key order and defaults exactly as the dict literal. -/
def hillsboroughRecord (attr : AttrMap) : Dict :=
  [("success", .bool true),
   ("address", getAttr attr "SITUSADD1" (.str "")),
   ("city", getAttr attr "SCITY" (.str "TAMPA")),
   ("zip", getAttr attr "SZIP" (.str "")),
   ("owner", getAttr attr "OWNERNAME" (.str "")),
   ("owner_address", getAttr attr "OWNERADD1" (.str "")),
   ("owner_city", getAttr attr "OWNERCITY" (.str "")),
   ("owner_state", getAttr attr "OWNERSTATE" (.str "")),
   ("owner_zip", getAttr attr "OWNERZIP" (.str "")),
   ("legal_description", getAttr attr "LEGDECFULL" (.str "")),
   ("legal_description2", getAttr attr "LEGAL2" (.str "")),
   ("acres", getAttr attr "ACRES" (.int 0)),
   ("area_sqft", getAttr attr "AREANO" (.int 0)),
   ("zoning", getAttr attr "ZONING" (.str "Contact City/County for zoning info")),
   ("land_use", getAttr attr "PARUSEDESC" (.str "")),
   ("land_use_code", getAttr attr "DOR4CODE" (.str "")),
   ("assessed_land", getAttr attr "ASSD_LND" (.int 0)),
   ("assessed_building", getAttr attr "ASSD_BLD" (.int 0)),
   ("assessed_total", getAttr attr "ASSD_TOT" (.int 0)),
   ("market_value", getAttr attr "PARVAL" (.int 0)),
   ("subdivision", getAttr attr "SUBDIV_NM" (.str "")),
   ("block", getAttr attr "BLOCK" (.str "")),
   ("lot", getAttr attr "LOT" (.str "")),
   ("section", getAttr attr "S_SECTION" (.str "")),
   ("township", getAttr attr "S_TOWNSHIP" (.str "")),
   ("range", getAttr attr "S_RANGE" (.str "")),
   ("year_built", getAttr attr "YRBLT_ACT" (.str "")),
   ("num_buildings", getAttr attr "NO_BULDNG" (.int 0)),
   ("num_units", getAttr attr "NO_RES_UNITS" (.int 0)),
   ("total_living_area", getAttr attr "TOT_LVG_AREA" (.int 0)),
   ("sale_date", getAttr attr "SALE1_DATE" (.str "")),
   ("sale_amount", getAttr attr "SALE1_AMT" (.int 0)),
   ("parcel_link", getAttr attr "PAWEBPAGE" (.str "")),
   ("error", PyVal.none)]

/-- `lookup_hillsborough`: one query (request index 0); transport errors,
`raise_for_status`, JSON-decoding errors are all caught by the `try` and
become an `API Error` failure; zero features is the not-found failure. -/
def lookup_hillsborough (http : Http) (parcel_id : String) : Dict :=
  let folio := hillsNormalize parcel_id
  match http 0 (mkQuery hillsboroughUrl (whereEq "FOLIONUM" folio)) with
  | .exn m => apiErrorDict m
  | .resp st body =>
      if raisesStatus st then apiErrorDict (statusMsg st)
      else
        match body with
        | .error m => apiErrorDict m
        | .ok doc =>
            match doc.features with
            | some (f :: _) => hillsboroughRecord f.attributes
            | _ => failDict ("Parcel " ++ folio ++ " not found in Hillsborough County database")

/-- The Pinellas `field_variations` candidate list (source lines 120-125). -/
def fieldVariations (pid : String) : List (String × String) :=
  [("PGIS.PGIS.AccelaParcels.PARCELID", pid),
   ("PGIS.PGIS.Parcels.PARCELID", pid),
   ("PARCELID", pid),
   ("PIN", pid)]

/-- Classify one response of the Pinellas parcel-layer loop: `some attrs`
when the status is exactly 200, the body decodes and the feature list is
non-empty (then the loop breaks with the first feature's attributes); `none`
when the request raised, the status is not 200, the JSON decode raised
(caught by the loop's `try`), or the feature list is empty/absent. -/
def pinellasHit (r : HttpResult) : Option AttrMap :=
  match r with
  | .exn _ => Option.none
  | .resp st body =>
      if st = 200 then
        match body with
        | .error _ => Option.none
        | .ok doc =>
            match doc.features with
            | some (f :: _) => some f.attributes
            | _ => Option.none
      else Option.none

/-- The Pinellas candidate loop. `k` is the index of the next HTTP request
(one request is consumed per candidate, hit or miss). On a hit it returns
the matched attributes together with the next request index. -/
def pinellasLoop (http : Http) : Nat → List (String × String) → Option (AttrMap × Nat)
  | _, [] => Option.none
  | k, fv :: rest =>
      match pinellasHit (http k (attemptReq pinellasParcelUrl fv)) with
      | some a => some (a, k + 1)
      | Option.none => pinellasLoop http (k + 1) rest

/-- Models `str(v)` for the `objectIds` parameter. -/
def pyStr : PyVal → String
  | .str s => s
  | .int n => toString n
  | .float q => toString q
  | .bool b => if b then "True" else "False"
  | .none => "None"

/-- The `queryRelatedRecords` request (source lines 162-168). -/
def relatedReq (oid : PyVal) : Request :=
  ⟨pinellasRelatedUrl,
   [("objectIds", pyStr oid), ("relationshipId", "0"), ("outFields", "*"), ("f", "json")]⟩

/-- Scan the related-record groups for the first group with a non-empty
`relatedRecords` list; its first record's attributes become `pao_data`. -/
def paoScan : List RelGroup → AttrMap
  | [] => []
  | g :: rest =>
      match g.relatedRecords with
      | some (r :: _) => r.attributes
      | _ => paoScan rest

/-- Extract `pao_data` from a decoded related-records document:
`relatedRecordGroups` must be present and non-empty (truthiness), then the
first qualifying group wins; otherwise `pao_data` stays `{}`. -/
def paoExtract (doc : JsonDoc) : AttrMap :=
  match doc.relatedRecordGroups with
  | some (g :: gs) => paoScan (g :: gs)
  | _ => []

/-- `pao_data` from the related-records response: any raise, non-200 status
or decode failure is swallowed (`except: pass`) leaving `{}`. -/
def paoOf (r : HttpResult) : AttrMap :=
  match r with
  | .exn _ => []
  | .resp st body =>
      if st = 200 then
        match body with
        | .error _ => []
        | .ok doc => paoExtract doc
      else []

/-- Step 2 of the Pinellas lookup: issue the related-records query (request
index `k`) only when the object id from step 1 is truthy; otherwise
`pao_data` is `{}` and no request is made. -/
def pinellasPao (http : Http) (k : Nat) (parcel : AttrMap) : AttrMap :=
  let oid := getAttr parcel "PGIS.PGIS.Parcels.OBJECTID" PyVal.none
  if oid.truthy then paoOf (http k (relatedReq oid)) else []

/-- The Pinellas merge of parcel-layer and appraiser attributes (source
lines 182-220). The acres entry evaluates `statedAcres` on the raw
stated-area value; since that line runs outside the try blocks its
exception propagates out of the whole lookup (the `.error` case). -/
def pinellasRecord (parcel pao : AttrMap) (pid : String) : Except PyExc Dict :=
  match statedAcres (getAttr parcel "PGIS.PGIS.AccelaParcels.STATEDAREA" (.str "0")) with
  | .error e => .error e
  | .ok q =>
      .ok
        [("success", .bool true),
         ("address", getAttr pao "SITUSSTREET" (.str "")),
         ("city", pyOr (getAttr parcel "PGIS.PGIS.AccelaParcels.JURISDICTION" (.str ""))
                       (getAttr pao "SITUSCITY" (.str ""))),
         ("zip", getAttr pao "SITUSZIP" (.str "")),
         ("owner", getAttr pao "OWNERNAME" (.str "")),
         ("owner_address", getAttr pao "OWNERADD1" (.str "")),
         ("owner_city", getAttr pao "OWNERCITY" (.str "")),
         ("owner_state", getAttr pao "OWNERSTATE" (.str "")),
         ("owner_zip", getAttr pao "OWNERZIP" (.str "")),
         ("legal_description", pyOr (getAttr parcel "PGIS.PGIS.AccelaParcels.LEGAL" (.str ""))
                                    (getAttr pao "LEGALDESC" (.str ""))),
         ("legal_description2", .str ""),
         ("acres", .float q),
         ("area_sqft", .int 0),
         ("zoning", getAttr parcel "PGIS.PGIS.AccelaParcels.ZONECLASS" (.str "Contact jurisdiction")),
         ("land_use", getAttr parcel "PGIS.PGIS.AccelaParcels.PROPOSEDLANDUSE" (.str "")),
         ("land_use_code", getAttr parcel "PGIS.PGIS.AccelaParcels.PAO_USECODE" (.str "")),
         ("assessed_land", getAttr pao "LANDVAL" (.int 0)),
         ("assessed_building", getAttr pao "BLDGVAL" (.int 0)),
         ("assessed_total", getAttr pao "JUSTVAL" (.int 0)),
         ("market_value", getAttr pao "ASMTVAL" (.int 0)),
         ("subdivision", getAttr parcel "PGIS.PGIS.AccelaParcels.SUBDIVISION" (.str "")),
         ("block", getAttr parcel "PGIS.PGIS.AccelaParcels.BK" (.str "")),
         ("lot", getAttr parcel "PGIS.PGIS.AccelaParcels.LOT" (.str "")),
         ("section", getAttr parcel "PGIS.PGIS.AccelaParcels.SC" (.str "")),
         ("township", getAttr parcel "PGIS.PGIS.AccelaParcels.TW" (.str "")),
         ("range", getAttr parcel "PGIS.PGIS.AccelaParcels.RG" (.str "")),
         ("year_built", getAttr pao "YRBLT" (.str "")),
         ("num_buildings", getAttr pao "BLDGCNT" (.int 0)),
         ("num_units", getAttr pao "UNITS" (.int 0)),
         ("total_living_area", getAttr pao "TOTLIVAREA" (.int 0)),
         ("sale_date", getAttr pao "SALEDT1" (.str "")),
         ("sale_amount", getAttr pao "SALEPRICE1" (.int 0)),
         ("parcel_link", .str ("https://www.pcpao.gov/PropertyDetail?ParcelID=" ++ pid)),
         ("fema_flood_zone", getAttr parcel "PGIS.PGIS.AccelaParcels.FLOOD_ZONE" (.str "")),
         ("error", PyVal.none)]

/-- The Pinellas not-found failure, message as in the triple-quoted f-string. -/
def pinellasNotFound (pid : String) : Dict :=
  failDict ("Parcel " ++ pid ++ " not found in Pinellas County GIS.\n\nTry: https://www.pcpao.gov/PropertyDetail?ParcelID=" ++ pid ++ "\n            ")

/-- Steps 2-3 of `lookup_pinellas` once the candidate loop matched with
attributes `parcel` and next request index `k`. -/
def pinellasFinish (http : Http) (k : Nat) (parcel : AttrMap) (pid : String) :
    Except PyExc Dict :=
  pinellasRecord parcel (pinellasPao http k parcel) pid

/-- `lookup_pinellas`. `if not parcel_data:` is Python truthiness, so a
matched feature whose attribute map is empty also takes the not-found
branch. -/
def lookup_pinellas (http : Http) (pid : String) : Except PyExc Dict :=
  match pinellasLoop http 0 (fieldVariations pid) with
  | Option.none => .ok (pinellasNotFound pid)
  | some (a, k) =>
      if a.isEmpty then .ok (pinellasNotFound pid)
      else pinellasFinish http k a pid

/-- The Pasco `query_attempts` candidate list (source lines 239-244). -/
def pascoAttempts (pid : String) : List (String × String) :=
  [("PARCELID", pid),
   ("PARCELID", pascoNormalize pid),
   ("ALTKEY", pid),
   ("ALTKEY", pascoNormalize pid)]

/-- Classify one response of the Pasco loop: `some attrs` when nothing in
the `try` raised (`raise_for_status` passes on non-4xx/5xx, JSON decodes)
and the feature list is non-empty, else `none`. A transport error and a
clean zero-feature response both yield `none`, i.e. both advance to the
next candidate. -/
def pascoHit (r : HttpResult) : Option AttrMap :=
  match r with
  | .exn _ => Option.none
  | .resp st body =>
      if raisesStatus st then Option.none
      else
        match body with
        | .error _ => Option.none
        | .ok doc =>
            match doc.features with
            | some (f :: _) => some f.attributes
            | _ => Option.none

/-- The Pasco raw-attributes → returned-dict mapping (source lines 262-297);
`address` has the two-source fallback `SITUSADD1 or SITEADD`. -/
def pascoRecord (attr : AttrMap) : Dict :=
  [("success", .bool true),
   ("address", pyOr (getAttr attr "SITUSADD1" (.str "")) (getAttr attr "SITEADD" (.str ""))),
   ("city", getAttr attr "SCITY" (.str "")),
   ("zip", getAttr attr "SZIP" (.str "")),
   ("owner", getAttr attr "OWNERNAME" (.str "")),
   ("owner_address", getAttr attr "OWNERADD1" (.str "")),
   ("owner_city", getAttr attr "OWNERCITY" (.str "")),
   ("owner_state", getAttr attr "OWNERSTATE" (.str "")),
   ("owner_zip", getAttr attr "OWNERZIP" (.str "")),
   ("legal_description", getAttr attr "LEGDECFULL" (.str "")),
   ("legal_description2", getAttr attr "LEGAL2" (.str "")),
   ("acres", getAttr attr "ACRES" (.int 0)),
   ("area_sqft", getAttr attr "AREANO" (.int 0)),
   ("zoning", getAttr attr "ZONING" (.str "Contact City/County for zoning info")),
   ("land_use", getAttr attr "PARUSEDESC" (.str "")),
   ("land_use_code", getAttr attr "DOR4CODE" (.str "")),
   ("assessed_land", getAttr attr "ASSD_LND" (.int 0)),
   ("assessed_building", getAttr attr "ASSD_BLD" (.int 0)),
   ("assessed_total", getAttr attr "ASSD_TOT" (.int 0)),
   ("market_value", getAttr attr "PARVAL" (.int 0)),
   ("subdivision", getAttr attr "SUBDIV_NM" (.str "")),
   ("block", getAttr attr "BLOCK" (.str "")),
   ("lot", getAttr attr "LOT" (.str "")),
   ("section", getAttr attr "S_SECTION" (.str "")),
   ("township", getAttr attr "S_TOWNSHIP" (.str "")),
   ("range", getAttr attr "S_RANGE" (.str "")),
   ("year_built", getAttr attr "YRBLT_ACT" (.str "")),
   ("num_buildings", getAttr attr "NO_BULDNG" (.int 0)),
   ("num_units", getAttr attr "NO_RES_UNITS" (.int 0)),
   ("total_living_area", getAttr attr "TOT_LVG_AREA" (.int 0)),
   ("sale_date", getAttr attr "SALE1_DATE" (.str "")),
   ("sale_amount", getAttr attr "SALE1_AMT" (.int 0)),
   ("parcel_link", getAttr attr "PAWEBPAGE" (.str "")),
   ("error", PyVal.none)]

/-- The Pasco exhaustion failure (source lines 302-305). -/
def pascoNotFound (pid : String) : Dict :=
  failDict ("Parcel " ++ pid ++ " not found in Pasco County database. Format: XX-XX-XX-XX-XXX-XXX-XXXX")

/-- The Pasco candidate loop; `k` is the next request index, one request per
candidate whether it hits, errors or returns zero features. -/
def pascoGo (http : Http) (pid : String) : Nat → List (String × String) → Dict
  | _, [] => pascoNotFound pid
  | k, fv :: rest =>
      match pascoHit (http k (attemptReq pascoUrl fv)) with
      | some attr => pascoRecord attr
      | Option.none => pascoGo http pid (k + 1) rest

/-- `lookup_pasco`. -/
def lookup_pasco (http : Http) (pid : String) : Dict :=
  pascoGo http pid 0 (pascoAttempts pid)

/-- The Manatee raw-attributes → returned-dict mapping (source lines 330-365). -/
def manateeRecord (attr : AttrMap) : Dict :=
  [("success", .bool true),
   ("address", getAttr attr "PRIMARY_ADDRESS" (.str "")),
   ("city", getAttr attr "PROP_CITYNAME" (.str "")),
   ("zip", getAttr attr "PROP_ZIP" (.str "")),
   ("owner", getAttr attr "OWNER" (.str "")),
   ("owner_address", getAttr attr "MAILING_ADDRESS" (.str "")),
   ("owner_city", getAttr attr "MAIL_CITY" (.str "")),
   ("owner_state", getAttr attr "MAIL_STATE" (.str "")),
   ("owner_zip", getAttr attr "MAIL_ZIP" (.str "")),
   ("legal_description", getAttr attr "LEGAL_DESCRIPTION" (.str "")),
   ("legal_description2", .str ""),
   ("acres", getAttr attr "ACRES" (.int 0)),
   ("area_sqft", getAttr attr "AREA_SQFT" (.int 0)),
   ("zoning", getAttr attr "ZONING" (.str "")),
   ("land_use", getAttr attr "FUTURE_LAND_USE" (.str "")),
   ("land_use_code", getAttr attr "DOR_UC" (.str "")),
   ("assessed_land", getAttr attr "LAND_VALUE" (.int 0)),
   ("assessed_building", getAttr attr "BLDG_VALUE" (.int 0)),
   ("assessed_total", getAttr attr "JUST_VALUE" (.int 0)),
   ("market_value", getAttr attr "MARKET_VALUE" (.int 0)),
   ("subdivision", getAttr attr "SUBDIVISION" (.str "")),
   ("block", getAttr attr "BLOCK" (.str "")),
   ("lot", getAttr attr "LOT" (.str "")),
   ("section", getAttr attr "SECTION" (.str "")),
   ("township", getAttr attr "TOWNSHIP" (.str "")),
   ("range", getAttr attr "RANGE" (.str "")),
   ("year_built", getAttr attr "YR_BLT" (.str "")),
   ("num_buildings", getAttr attr "NO_BLDG" (.int 0)),
   ("num_units", getAttr attr "NO_RES_UNTS" (.int 0)),
   ("total_living_area", getAttr attr "TOT_LVG_AREA" (.int 0)),
   ("sale_date", getAttr attr "SALE_DATE" (.str "")),
   ("sale_amount", getAttr attr "SALE_PRC" (.int 0)),
   ("parcel_link", .str ""),
   ("error", PyVal.none)]

/-- `lookup_manatee`: one query (request index 0). -/
def lookup_manatee (http : Http) (parcel_id : String) : Dict :=
  match http 0 (mkQuery manateeUrl (whereEq "PIN" parcel_id)) with
  | .exn m => apiErrorDict m
  | .resp st body =>
      if raisesStatus st then apiErrorDict (statusMsg st)
      else
        match body with
        | .error m => apiErrorDict m
        | .ok doc =>
            match doc.features with
            | some (f :: _) => manateeRecord f.attributes
            | _ => failDict "Parcel ID not found in Manatee County"

/-- `lookup_property` (source lines 10-34): normalize the county name with
`strip().title()` and dispatch. Only the Pinellas branch can propagate an
exception, hence the `Except` wrapping. -/
def lookup_property (http : Http) (county parcel_id : String) : Except PyExc Dict :=
  let c := pyTitle (pyStrip county)
  if c = "Hillsborough" then .ok (lookup_hillsborough http parcel_id)
  else if c = "Pinellas" then lookup_pinellas http parcel_id
  else if c = "Manatee" then .ok (lookup_manatee http parcel_id)
  else if c = "Pasco" then .ok (lookup_pasco http parcel_id)
  else if c = "Sarasota" then .ok (failDict "Sarasota County lookup coming in Phase 2")
  else .ok (failDict ("County \"" ++ c ++ "\" not supported"))

/-- The canonical-record keys every success dict carries (besides the
`success` and `error` components); order as in the Hillsborough literal. -/
def recordKeys : List String :=
  ["address", "city", "zip", "owner", "owner_address", "owner_city",
   "owner_state", "owner_zip", "legal_description", "legal_description2",
   "acres", "area_sqft", "zoning", "land_use", "land_use_code",
   "assessed_land", "assessed_building", "assessed_total", "market_value",
   "subdivision", "block", "lot", "section", "township", "range",
   "year_built", "num_buildings", "num_units", "total_living_area",
   "sale_date", "sale_amount", "parcel_link"]

/-- A returned dict in Success shape: `success` is `True`, the `error`
component is `None`, and every canonical record key is present. -/
def successShape (d : Dict) : Bool :=
  (findKey d "success" == some (.bool true)) &&
  (findKey d "error" == some PyVal.none) &&
  recordKeys.all (fun k => (findKey d k).isSome)

/-- A returned dict in Failure shape: `success` is `False`, `error` carries
a non-empty message string, and no canonical record key is present. -/
def failureShape (d : Dict) : Bool :=
  (findKey d "success" == some (.bool false)) &&
  (match findKey d "error" with
   | some (.str m) => !(m == "")
   | _ => false) &&
  recordKeys.all (fun k => findKey d k == (Option.none : Option PyVal))

/-- A dict is in exactly one of the two shapes. -/
def exactlyOneShape (d : Dict) : Prop :=
  (successShape d = true ∧ failureShape d = false) ∨
  (failureShape d = true ∧ successShape d = false)

/-- Fixture attributes for the Hillsborough concrete scenario. -/
def attrsAcme : AttrMap := [("FOLIONUM", .str "1926050030"), ("OWNERNAME", .str "ACME LLC")]

/-- Fixture server: one feature with `FOLIONUM` and `OWNERNAME` on the first
request, nothing afterwards. -/
def httpAcme : Http := fun k _ =>
  if k = 0 then .resp 200 (.ok ⟨some [⟨attrsAcme⟩], Option.none⟩) else .exn "no more"

/-- Pinellas fixture whose matched parcel attributes carry an empty
stated-area string. -/
def attrsEmptyStated : AttrMap := [("PGIS.PGIS.AccelaParcels.STATEDAREA", .str "")]

/-- Fixture server answering the first parcel-layer query with the feature
above. -/
def httpStatedEmpty : Http := fun k _ =>
  if k = 0 then .resp 200 (.ok ⟨some [⟨attrsEmptyStated⟩], Option.none⟩) else .exn "x"

/-- A server on which every request raises. -/
def httpAllExn : Http := fun _ _ => .exn "boom"

/-- Pinellas fixture: parcel layer matches with object id 42 and no other
attributes. -/
def attrsC6 : AttrMap := [("PGIS.PGIS.Parcels.OBJECTID", .int 42)]

/-- Fixture server: first query matches with `attrsC6`; the related-records
query decodes but has no `relatedRecordGroups` key. -/
def httpC6 : Http := fun k _ =>
  if k = 0 then .resp 200 (.ok ⟨some [⟨attrsC6⟩], Option.none⟩)
  else .resp 200 (.ok ⟨Option.none, Option.none⟩)

/-- Like `attrsC6` but the stated-area attribute is present and empty. -/
def attrsC6cex : AttrMap :=
  [("PGIS.PGIS.Parcels.OBJECTID", .int 42), ("PGIS.PGIS.AccelaParcels.STATEDAREA", .str "")]

/-- Fixture server: first query matches with `attrsC6cex`; the
related-records query returns no groups. -/
def httpC6cex : Http := fun k _ =>
  if k = 0 then .resp 200 (.ok ⟨some [⟨attrsC6cex⟩], Option.none⟩)
  else .resp 200 (.ok ⟨Option.none, Option.none⟩)

/-- Fixture server: one Hillsborough feature whose attribute map is empty
(so every source key, in particular `SCITY`, is missing). -/
def httpNoCity : Http := fun k _ =>
  if k = 0 then .resp 200 (.ok ⟨some [⟨[]⟩], Option.none⟩) else .exn "x"

/-- A string with a non-empty literal prefix is non-empty. -/
theorem append_ne_empty_left (s t : String) (h : s.length ≠ 0) : s ++ t ≠ "" := by
  intro he
  apply h
  have hl := congrArg String.length he
  rw [String.length_append] at hl
  have h0 : ("" : String).length = 0 := rfl
  omega

/-- A failure dict with a non-empty message is in exactly the Failure shape. -/
theorem exactlyOne_failDict (m : String) (h : m ≠ "") :
    exactlyOneShape (failDict m) := by
  refine Or.inr ⟨?_, rfl⟩
  have hb : (m == "") = false := by
    cases hc : m == "" with
    | false => rfl
    | true => exact absurd (by simpa using hc) h
  simp only [failureShape, failDict, findKey]
  simp [hb, recordKeys, findKey]

theorem exactlyOne_hillsRecord (a : AttrMap) : exactlyOneShape (hillsboroughRecord a) :=
  Or.inl ⟨rfl, rfl⟩

theorem exactlyOne_pascoRecord (a : AttrMap) : exactlyOneShape (pascoRecord a) :=
  Or.inl ⟨rfl, rfl⟩

theorem exactlyOne_manateeRecord (a : AttrMap) : exactlyOneShape (manateeRecord a) :=
  Or.inl ⟨rfl, rfl⟩

theorem exactlyOne_hillsborough (http : Http) (pid : String) :
    exactlyOneShape (lookup_hillsborough http pid) := by
  unfold lookup_hillsborough
  dsimp only
  split
  · exact exactlyOne_failDict _ (append_ne_empty_left "API Error: " _ (by decide))
  · split
    · exact exactlyOne_failDict _ (append_ne_empty_left "API Error: " _ (by decide))
    · split
      · exact exactlyOne_failDict _ (append_ne_empty_left "API Error: " _ (by decide))
      · split
        · exact exactlyOne_hillsRecord _
        · exact exactlyOne_failDict _ (append_ne_empty_left "Parcel " _ (by decide))

theorem exactlyOne_manatee (http : Http) (pid : String) :
    exactlyOneShape (lookup_manatee http pid) := by
  unfold lookup_manatee
  split
  · exact exactlyOne_failDict _ (append_ne_empty_left "API Error: " _ (by decide))
  · split
    · exact exactlyOne_failDict _ (append_ne_empty_left "API Error: " _ (by decide))
    · split
      · exact exactlyOne_failDict _ (append_ne_empty_left "API Error: " _ (by decide))
      · split
        · exact exactlyOne_manateeRecord _
        · exact exactlyOne_failDict _ (by decide)

theorem exactlyOne_pascoGo (http : Http) (pid : String) :
    ∀ (l : List (String × String)) (k : Nat), exactlyOneShape (pascoGo http pid k l) := by
  intro l
  induction l with
  | nil =>
      intro k
      exact exactlyOne_failDict _ (append_ne_empty_left "Parcel " _ (by decide))
  | cons fv rest ih =>
      intro k
      unfold pascoGo
      split
      · exact exactlyOne_pascoRecord _
      · exact ih (k + 1)

theorem exactlyOne_pasco (http : Http) (pid : String) :
    exactlyOneShape (lookup_pasco http pid) :=
  exactlyOne_pascoGo http pid (pascoAttempts pid) 0

theorem exactlyOne_pinellasRecord (parcel pao : AttrMap) (pid : String) (d : Dict)
    (h : pinellasRecord parcel pao pid = .ok d) : exactlyOneShape d := by
  unfold pinellasRecord at h
  split at h
  · exact absurd h (by simp)
  · injection h with h2
    subst h2
    exact Or.inl ⟨rfl, rfl⟩

theorem exactlyOne_pinellas (http : Http) (pid : String) (d : Dict)
    (h : lookup_pinellas http pid = .ok d) : exactlyOneShape d := by
  unfold lookup_pinellas at h
  split at h
  · injection h with h2
    subst h2
    exact exactlyOne_failDict _ (append_ne_empty_left "Parcel " _ (by decide))
  · split at h
    · injection h with h2
      subst h2
      exact exactlyOne_failDict _ (append_ne_empty_left "Parcel " _ (by decide))
    · exact exactlyOne_pinellasRecord _ _ _ _ h

/-- Claim C10: every dict value returned by lookup_property, for any county,
identifier and HTTP behaviour, is in exactly one of the two shapes: Success
(success True, error component None, all canonical record keys present) or
Failure (success False, a non-empty error message string, no record keys). -/
theorem c10_result_shape :
    ∀ (http : Http) (county pid : String) (d : Dict),
      lookup_property http county pid = Except.ok d →
      (successShape d = true ∧ failureShape d = false) ∨
      (failureShape d = true ∧ successShape d = false) := by
  intro http county pid d h
  unfold lookup_property at h
  dsimp only at h
  split_ifs at h
  · injection h with h2
    subst h2
    exact exactlyOne_hillsborough http pid
  · exact exactlyOne_pinellas http pid d h
  · injection h with h2
    subst h2
    exact exactlyOne_manatee http pid
  · injection h with h2
    subst h2
    exact exactlyOne_pasco http pid
  · injection h with h2
    subst h2
    exact exactlyOne_failDict _ (by decide)
  · injection h with h2
    subst h2
    exact exactlyOne_failDict _ (append_ne_empty_left "County \"" _ (by decide))

theorem c10_result_shape_witness :
    (successShape (failDict "County \"Atlantis\" not supported") = true ∧
     failureShape (failDict "County \"Atlantis\" not supported") = false) ∨
    (failureShape (failDict "County \"Atlantis\" not supported") = true ∧
     successShape (failDict "County \"Atlantis\" not supported") = false) :=
  c10_result_shape httpAllExn "Atlantis" "x" _ (by decide)

/-- Claim C4: for every county string whose strip-and-title normalization is
not one of the four dispatched adapters, lookup_property returns (never
raises) a Failure dict whose message contains the normalized county name. -/
theorem c4_unsupported_county :
    ∀ (http : Http) (county pid : String),
      pyTitle (pyStrip county) ∉ (["Hillsborough", "Pinellas", "Manatee", "Pasco"] : List String) →
      ∃ pre post, lookup_property http county pid =
        Except.ok (failDict (pre ++ pyTitle (pyStrip county) ++ post)) := by
  intro http county pid h
  simp only [List.mem_cons, List.not_mem_nil, or_false, not_or] at h
  obtain ⟨h1, h2, h3, h4⟩ := h
  unfold lookup_property
  dsimp only
  rw [if_neg h1, if_neg h2, if_neg h3, if_neg h4]
  by_cases hs : pyTitle (pyStrip county) = "Sarasota"
  · rw [if_pos hs, hs]
    exact ⟨"", " County lookup coming in Phase 2", by decide⟩
  · rw [if_neg hs]
    exact ⟨"County \"", "\" not supported", rfl⟩

theorem c4_unsupported_county_witness :
    ∃ pre post, lookup_property httpAllExn "Atlantis" "7" =
      Except.ok (failDict (pre ++ pyTitle (pyStrip "Atlantis") ++ post)) :=
  c4_unsupported_county httpAllExn "Atlantis" "7" (by decide)

theorem filter_pair_idem {α : Type} (p q : α → Bool) (l : List α) :
    ((((l.filter p).filter q).filter p).filter q) = (l.filter p).filter q := by
  induction l with
  | nil => rfl
  | cons a t ih => cases hp : p a <;> cases hq : q a <;> simp [List.filter_cons, hp, hq, ih, -List.filter_filter]

theorem filter_triple_idem {α : Type} (p q r : α → Bool) (l : List α) :
    ((((((l.filter p).filter q).filter r).filter p).filter q).filter r) =
      ((l.filter p).filter q).filter r := by
  induction l with
  | nil => rfl
  | cons a t ih =>
      cases hp : p a <;> cases hq : q a <;> cases hr : r a <;>
        simp [List.filter_cons, hp, hq, hr, ih, -List.filter_filter]

/-- Claim C9: both identifier normalizers (Pasco: remove dashes and spaces;
Hillsborough: additionally remove dots) are idempotent. -/
theorem c9_normalizer_idempotent :
    ∀ s : String,
      hillsNormalize (hillsNormalize s) = hillsNormalize s ∧
      pascoNormalize (pascoNormalize s) = pascoNormalize s := by
  intro s
  constructor
  · exact congrArg String.mk
      (filter_triple_idem (fun a => !(a == '-')) (fun a => !(a == ' '))
        (fun a => !(a == '.')) s.data)
  · exact congrArg String.mk
      (filter_pair_idem (fun a => !(a == '-')) (fun a => !(a == ' ')) s.data)

theorem pascoRecord_ne_notFound (a : AttrMap) (pid : String) :
    pascoRecord a ≠ pascoNotFound pid := by
  simp [pascoRecord, pascoNotFound, failDict]

theorem pascoGo_notFound_iff (http : Http) (pid : String) :
    ∀ (l : List (String × String)) (k : Nat),
      pascoGo http pid k l = pascoNotFound pid ↔
        ∀ i, i < l.length →
          pascoHit (http (k + i) (attemptReq pascoUrl (l.getD i ("", "")))) = Option.none := by
  intro l
  induction l with
  | nil =>
      intro k
      constructor
      · intro _ i hi
        exact absurd hi (by simp)
      · intro _
        rfl
  | cons fv rest ih =>
      intro k
      unfold pascoGo
      cases hr : pascoHit (http k (attemptReq pascoUrl fv)) with
      | some a =>
          simp only [hr]
          constructor
          · intro hEq
            exact absurd hEq (pascoRecord_ne_notFound a pid)
          · intro hAll
            have h0 := hAll 0 (by simp)
            simp only [Nat.add_zero, List.getD_cons_zero] at h0
            rw [hr] at h0
            exact absurd h0 (by simp)
      | none =>
          simp only [hr]
          rw [ih (k + 1)]
          constructor
          · intro hAll i hi
            cases i with
            | zero =>
                simp [hr]
            | succ j =>
                have hj : j < rest.length := by simpa using hi
                have := hAll j hj
                have harith : k + 1 + j = k + (j + 1) := by omega
                rw [harith] at this
                simpa [List.getD_cons_succ] using this
          · intro hAll j hj
            have := hAll (j + 1) (by simpa using hj)
            have harith : k + (j + 1) = k + 1 + j := by omega
            rw [harith] at this
            simpa [List.getD_cons_succ] using this

theorem pascoGo_congr (pid : String) :
    ∀ (l : List (String × String)) (k : Nat) (http hb : Http),
      (∀ i, i < l.length →
        pascoHit (http (k + i) (attemptReq pascoUrl (l.getD i ("", "")))) =
        pascoHit (hb (k + i) (attemptReq pascoUrl (l.getD i ("", ""))))) →
      pascoGo http pid k l = pascoGo hb pid k l := by
  intro l
  induction l with
  | nil =>
      intro k http hb _
      rfl
  | cons fv rest ih =>
      intro k http hb hAgree
      have h0 := hAgree 0 (by simp)
      simp only [Nat.add_zero, List.getD_cons_zero] at h0
      unfold pascoGo
      rw [h0]
      cases hr : pascoHit (hb k (attemptReq pascoUrl fv)) with
      | some a => simp only [hr]
      | none =>
          simp only [hr]
          apply ih (k + 1) http hb
          intro i hi
          have := hAgree (i + 1) (by simpa using hi)
          have harith : k + (i + 1) = k + 1 + i := by omega
          rw [harith] at this
          simpa [List.getD_cons_succ] using this

theorem pascoGo_firstHit (http : Http) (pid : String) :
    ∀ (l : List (String × String)) (k i : Nat) (a : AttrMap),
      i < l.length →
      (∀ j, j < i →
        pascoHit (http (k + j) (attemptReq pascoUrl (l.getD j ("", "")))) = Option.none) →
      pascoHit (http (k + i) (attemptReq pascoUrl (l.getD i ("", "")))) = some a →
      pascoGo http pid k l = pascoRecord a := by
  intro l
  induction l with
  | nil =>
      intro k i a hi
      exact absurd hi (by simp)
  | cons fv rest ih =>
      intro k i a hi hm hh
      unfold pascoGo
      cases i with
      | zero =>
          simp only [Nat.add_zero, List.getD_cons_zero] at hh
          simp only [hh]
      | succ j =>
          have h0 := hm 0 (by omega)
          simp only [Nat.add_zero, List.getD_cons_zero] at h0
          simp only [h0]
          apply ih (k + 1) j a
          · simpa using hi
          · intro j2 hj2
            have := hm (j2 + 1) (by omega)
            have harith : k + (j2 + 1) = k + 1 + j2 := by omega
            rw [harith] at this
            simpa [List.getD_cons_succ] using this
          · have harith : k + (j + 1) = k + 1 + j := by omega
            rw [harith] at hh
            simpa [List.getD_cons_succ] using hh

theorem pinellasLoop_firstHit (http : Http) :
    ∀ (l : List (String × String)) (k i : Nat) (a : AttrMap),
      i < l.length →
      (∀ j, j < i →
        pinellasHit (http (k + j) (attemptReq pinellasParcelUrl (l.getD j ("", "")))) = Option.none) →
      pinellasHit (http (k + i) (attemptReq pinellasParcelUrl (l.getD i ("", "")))) = some a →
      pinellasLoop http k l = some (a, k + i + 1) := by
  intro l
  induction l with
  | nil =>
      intro k i a hi
      exact absurd hi (by simp)
  | cons fv rest ih =>
      intro k i a hi hm hh
      unfold pinellasLoop
      cases i with
      | zero =>
          simp only [Nat.add_zero, List.getD_cons_zero] at hh
          simp only [hh]
      | succ j =>
          have h0 := hm 0 (by omega)
          simp only [Nat.add_zero, List.getD_cons_zero] at h0
          simp only [h0]
          have harith2 : k + (j + 1) + 1 = k + 1 + j + 1 := by omega
          rw [harith2]
          apply ih (k + 1) j a
          · simpa using hi
          · intro j2 hj2
            have := hm (j2 + 1) (by omega)
            have harith : k + (j2 + 1) = k + 1 + j2 := by omega
            rw [harith] at this
            simpa [List.getD_cons_succ] using this
          · have harith : k + (j + 1) = k + 1 + j := by omega
            rw [harith] at hh
            simpa [List.getD_cons_succ] using hh

/-- Claim C5: the Pasco candidate list has exactly four (field, variant)
combinations; the call returns the not-found Failure precisely when all four
candidates (consulted in order, one request each) miss, a miss being a
transport error, a raising status, undecodable JSON, or a zero-feature
response; and the result depends only on the per-candidate classification,
so a transport error advances the loop exactly as a zero-feature response. -/
theorem c5_pasco_exhaustion :
    ∀ (pid : String),
      (pascoAttempts pid).length = 4 ∧
      (∀ http : Http,
        (lookup_pasco http pid = pascoNotFound pid ↔
          ∀ i, i < 4 →
            pascoHit (http i (attemptReq pascoUrl ((pascoAttempts pid).getD i ("", "")))) =
              Option.none)) ∧
      (∀ http hb : Http,
        (∀ i, i < 4 →
          pascoHit (http i (attemptReq pascoUrl ((pascoAttempts pid).getD i ("", "")))) =
          pascoHit (hb i (attemptReq pascoUrl ((pascoAttempts pid).getD i ("", ""))))) →
        lookup_pasco http pid = lookup_pasco hb pid) := by
  intro pid
  refine ⟨rfl, ?_, ?_⟩
  · intro http
    constructor
    · intro hEq i hi
      have := (pascoGo_notFound_iff http pid (pascoAttempts pid) 0).mp hEq i hi
      simpa [Nat.zero_add] using this
    · intro hAll
      apply (pascoGo_notFound_iff http pid (pascoAttempts pid) 0).mpr
      intro i hi
      have := hAll i hi
      simpa [Nat.zero_add] using this
  · intro http hb hAgree
    apply pascoGo_congr pid (pascoAttempts pid) 0 http hb
    intro i hi
    have := hAgree i hi
    simpa [Nat.zero_add] using this

theorem c5_pasco_exhaustion_witness :
    lookup_pasco httpAllExn "12-34" = pascoNotFound "12-34" :=
  ((c5_pasco_exhaustion "12-34").2.1 httpAllExn).mpr (fun _ _ => rfl)

/-- Claim C7: in both multi-candidate adapters the first candidate in list
order whose response carries a non-empty feature list determines the result
(for Pasco, the record mapped from that first feature; for Pinellas, the
loop yields that feature attributes and the rest of the call), and the
oracle entries for later candidates are never consulted, since they are
universally quantified and unconstrained here. -/
theorem c7_first_hit_wins :
    (∀ (http : Http) (pid : String) (i : Nat) (a : AttrMap),
      i < 4 →
      (∀ j, j < i →
        pascoHit (http j (attemptReq pascoUrl ((pascoAttempts pid).getD j ("", "")))) =
          Option.none) →
      pascoHit (http i (attemptReq pascoUrl ((pascoAttempts pid).getD i ("", "")))) = some a →
      lookup_pasco http pid = pascoRecord a) ∧
    (∀ (http : Http) (pid : String) (i : Nat) (a : AttrMap),
      i < 4 →
      (∀ j, j < i →
        pinellasHit (http j (attemptReq pinellasParcelUrl ((fieldVariations pid).getD j ("", "")))) =
          Option.none) →
      pinellasHit (http i (attemptReq pinellasParcelUrl ((fieldVariations pid).getD i ("", "")))) =
        some a →
      pinellasLoop http 0 (fieldVariations pid) = some (a, i + 1) ∧
      lookup_pinellas http pid =
        (if a.isEmpty then Except.ok (pinellasNotFound pid)
         else pinellasFinish http (i + 1) a pid)) := by
  constructor
  · intro http pid i a hi hm hh
    apply pascoGo_firstHit http pid (pascoAttempts pid) 0 i a hi
    · intro j hj
      have := hm j hj
      simpa [Nat.zero_add] using this
    · simpa [Nat.zero_add] using hh
  · intro http pid i a hi hm hh
    have hloop : pinellasLoop http 0 (fieldVariations pid) = some (a, 0 + i + 1) := by
      apply pinellasLoop_firstHit http (fieldVariations pid) 0 i a hi
      · intro j hj
        have := hm j hj
        simpa [Nat.zero_add] using this
      · simpa [Nat.zero_add] using hh
    rw [Nat.zero_add] at hloop
    refine ⟨hloop, ?_⟩
    unfold lookup_pinellas
    rw [hloop]

theorem c7_first_hit_wins_witness :
    lookup_pasco httpAcme "X" = pascoRecord attrsAcme :=
  c7_first_hit_wins.1 httpAcme "X" 0 attrsAcme (by omega)
    (fun j hj => absurd hj (by omega)) (by decide)

/-- Claim C1 (refuted, code bug): the claim says lookup_property never lets
an exception escape, but when the matched Pinellas parcel attributes carry
an empty stated-area string, the acreage mapping (which runs outside the
try blocks) raises IndexError, which escapes lookup_property. -/
theorem c1_pinellas_exception_escape :
    pinellasHit (httpStatedEmpty 0 (attemptReq pinellasParcelUrl
      ("PGIS.PGIS.AccelaParcels.PARCELID", "12-34"))) = some attrsEmptyStated ∧
    lookup_property httpStatedEmpty "Pinellas" "12-34" = Except.error PyExc.indexError := by
  decide

/-- Claim C3 (refuted, code bug): the leading-numeric-token extraction
works ("2.50 AC" and "2.50" both give 2.50), but instead of defaulting to 0
the mapping raises IndexError on an empty value, ValueError on non-numeric
garbage, and AttributeError on a non-string value. -/
theorem c3_acreage_parsing :
    statedAcres (.str "2.50 AC") = Except.ok (mkRat 5 2) ∧
    statedAcres (.str "2.50") = Except.ok (mkRat 5 2) ∧
    statedAcres (.str "") = Except.error PyExc.indexError ∧
    statedAcres (.str "NOT A NUMBER") = Except.error PyExc.valueError ∧
    statedAcres (.int 3) = Except.error PyExc.attributeError := by
  decide

/-- Claim C8: against a fixture server returning one feature with
FOLIONUM 1926050030 and OWNERNAME ACME LLC, the Hillsborough lookup via
lookup_property returns Success with owner ACME LLC. -/
theorem c8_hillsborough_acme :
    lookup_property httpAcme "Hillsborough" "1926050030" =
      Except.ok (hillsboroughRecord attrsAcme) ∧
    findKey (hillsboroughRecord attrsAcme) "success" = some (.bool true) ∧
    findKey (hillsboroughRecord attrsAcme) "error" = some PyVal.none ∧
    findKey (hillsboroughRecord attrsAcme) "owner" = some (.str "ACME LLC") := by
  decide

/-- Claim C6 counterexample: the Pinellas parcel query matches (object id
42 present), the related query returns no groups, yet the call raises
IndexError (because the matched attributes carry an empty stated-area
string) instead of returning the Success the claim promises. -/
theorem c6_join_exception_cex :
    pinellasHit (httpC6cex 0 (attemptReq pinellasParcelUrl
      ("PGIS.PGIS.AccelaParcels.PARCELID", "P"))) = some attrsC6cex ∧
    pinellasPao httpC6cex 1 attrsC6cex = [] ∧
    lookup_pinellas httpC6cex "P" = Except.error PyExc.indexError := by
  decide

/-- Claim C2 counterexample: a Hillsborough response whose feature has no
SCITY attribute maps city to "TAMPA", not to the empty string the claim
states. -/
theorem c2_city_default_cex :
    findKey (lookup_hillsborough httpNoCity "1") "city" = some (.str "TAMPA") ∧
    ¬ findKey (lookup_hillsborough httpNoCity "1") "city" = some (.str "") := by
  decide

theorem getAttr_of_none (m : AttrMap) (k : String) (d : PyVal)
    (h : findKey m k = Option.none) : getAttr m k d = d := by
  simp [getAttr, h]

/-- Claim C6 amended: if the Pinellas parcel-layer loop matches with a
non-empty attribute map, the related-records step yields no appraiser data
(failed, no groups, or skipped for a falsy object id), and the stated-area
attribute parses (in particular when absent), then the call returns Success
with the appraiser-sourced fields defaulted to the empty string or 0 and
the geometry/zoning fields populated from the first source. -/
theorem c6_partial_join_amended :
    ∀ (http : Http) (pid : String) (i : Nat) (a : AttrMap) (q : Rat),
      i < 4 →
      (∀ j, j < i →
        pinellasHit (http j (attemptReq pinellasParcelUrl ((fieldVariations pid).getD j ("", "")))) =
          Option.none) →
      pinellasHit (http i (attemptReq pinellasParcelUrl ((fieldVariations pid).getD i ("", "")))) =
        some a →
      a.isEmpty = false →
      pinellasPao http (i + 1) a = [] →
      statedAcres (getAttr a "PGIS.PGIS.AccelaParcels.STATEDAREA" (.str "0")) = Except.ok q →
      ∃ d, lookup_pinellas http pid = Except.ok d ∧
        findKey d "success" = some (.bool true) ∧
        findKey d "error" = some PyVal.none ∧
        findKey d "owner" = some (.str "") ∧
        findKey d "address" = some (.str "") ∧
        findKey d "owner_address" = some (.str "") ∧
        findKey d "zip" = some (.str "") ∧
        findKey d "assessed_land" = some (.int 0) ∧
        findKey d "assessed_building" = some (.int 0) ∧
        findKey d "assessed_total" = some (.int 0) ∧
        findKey d "market_value" = some (.int 0) ∧
        findKey d "sale_date" = some (.str "") ∧
        findKey d "sale_amount" = some (.int 0) ∧
        findKey d "year_built" = some (.str "") ∧
        findKey d "acres" = some (.float q) ∧
        findKey d "zoning" =
          some (getAttr a "PGIS.PGIS.AccelaParcels.ZONECLASS" (.str "Contact jurisdiction")) ∧
        findKey d "land_use" =
          some (getAttr a "PGIS.PGIS.AccelaParcels.PROPOSEDLANDUSE" (.str "")) ∧
        findKey d "subdivision" =
          some (getAttr a "PGIS.PGIS.AccelaParcels.SUBDIVISION" (.str "")) ∧
        findKey d "fema_flood_zone" =
          some (getAttr a "PGIS.PGIS.AccelaParcels.FLOOD_ZONE" (.str "")) := by
  intro http pid i a q hi hm hh hne hpao hacres
  have hloop : pinellasLoop http 0 (fieldVariations pid) = some (a, 0 + i + 1) := by
    apply pinellasLoop_firstHit http (fieldVariations pid) 0 i a hi
    · intro j hj
      have := hm j hj
      simpa [Nat.zero_add] using this
    · simpa [Nat.zero_add] using hh
  rw [Nat.zero_add] at hloop
  unfold lookup_pinellas
  rw [hloop]
  simp only [hne, Bool.false_eq_true, if_false]
  unfold pinellasFinish
  rw [hpao]
  unfold pinellasRecord
  simp only [hacres]
  exact ⟨_, rfl, rfl, rfl, rfl, rfl, rfl, rfl, rfl, rfl, rfl, rfl, rfl, rfl, rfl, rfl, rfl, rfl, rfl, rfl⟩

theorem c6_partial_join_amended_witness :
    ∃ d, lookup_pinellas httpC6 "03-32-16-11737-001-0010" = Except.ok d ∧
      findKey d "success" = some (.bool true) ∧
      findKey d "error" = some PyVal.none ∧
      findKey d "owner" = some (.str "") ∧
      findKey d "address" = some (.str "") ∧
      findKey d "owner_address" = some (.str "") ∧
      findKey d "zip" = some (.str "") ∧
      findKey d "assessed_land" = some (.int 0) ∧
      findKey d "assessed_building" = some (.int 0) ∧
      findKey d "assessed_total" = some (.int 0) ∧
      findKey d "market_value" = some (.int 0) ∧
      findKey d "sale_date" = some (.str "") ∧
      findKey d "sale_amount" = some (.int 0) ∧
      findKey d "year_built" = some (.str "") ∧
      findKey d "acres" = some (.float (mkRat 0 1)) ∧
      findKey d "zoning" =
        some (getAttr attrsC6 "PGIS.PGIS.AccelaParcels.ZONECLASS" (.str "Contact jurisdiction")) ∧
      findKey d "land_use" =
        some (getAttr attrsC6 "PGIS.PGIS.AccelaParcels.PROPOSEDLANDUSE" (.str "")) ∧
      findKey d "subdivision" =
        some (getAttr attrsC6 "PGIS.PGIS.AccelaParcels.SUBDIVISION" (.str "")) ∧
      findKey d "fema_flood_zone" =
        some (getAttr attrsC6 "PGIS.PGIS.AccelaParcels.FLOOD_ZONE" (.str "")) :=
  c6_partial_join_amended httpC6 "03-32-16-11737-001-0010" 0 attrsC6 (mkRat 0 1)
    (by omega) (fun j hj => absurd hj (by omega)) (by decide) (by decide) (by decide) (by decide)

/-- Claim C2 amended: for each adapter, a raw attribute map missing all
fallback source keys for a canonical field maps that field to its documented
default, 0 for the numeric money/area fields and the empty string for the
text fields, except that Hillsborough city defaults to "TAMPA", Hillsborough
and Pasco zoning default to "Contact City/County for zoning info", and
Pinellas zoning defaults to "Contact jurisdiction". Each conjunct assumes
only the absence of its own field's source keys; the Pinellas conjuncts are
stated under the premise that the stated-area attribute is also absent (it
then parses as acres 0), since otherwise it must parse for any record to
exist at all. -/
theorem c2_defaults_amended :
    ∀ (a c m p b : AttrMap) (pid : String),
      ((findKey a "SITUSADD1" = Option.none → findKey (hillsboroughRecord a) "address" = some (.str "")) ∧
       (findKey a "SCITY" = Option.none → findKey (hillsboroughRecord a) "city" = some (.str "TAMPA")) ∧
       (findKey a "SZIP" = Option.none → findKey (hillsboroughRecord a) "zip" = some (.str "")) ∧
       (findKey a "OWNERNAME" = Option.none → findKey (hillsboroughRecord a) "owner" = some (.str "")) ∧
       (findKey a "OWNERADD1" = Option.none → findKey (hillsboroughRecord a) "owner_address" = some (.str "")) ∧
       (findKey a "OWNERCITY" = Option.none → findKey (hillsboroughRecord a) "owner_city" = some (.str "")) ∧
       (findKey a "OWNERSTATE" = Option.none → findKey (hillsboroughRecord a) "owner_state" = some (.str "")) ∧
       (findKey a "OWNERZIP" = Option.none → findKey (hillsboroughRecord a) "owner_zip" = some (.str "")) ∧
       (findKey a "LEGDECFULL" = Option.none → findKey (hillsboroughRecord a) "legal_description" = some (.str "")) ∧
       (findKey a "LEGAL2" = Option.none → findKey (hillsboroughRecord a) "legal_description2" = some (.str "")) ∧
       (findKey a "ACRES" = Option.none → findKey (hillsboroughRecord a) "acres" = some (.int 0)) ∧
       (findKey a "AREANO" = Option.none → findKey (hillsboroughRecord a) "area_sqft" = some (.int 0)) ∧
       (findKey a "ZONING" = Option.none → findKey (hillsboroughRecord a) "zoning" = some (.str "Contact City/County for zoning info")) ∧
       (findKey a "PARUSEDESC" = Option.none → findKey (hillsboroughRecord a) "land_use" = some (.str "")) ∧
       (findKey a "DOR4CODE" = Option.none → findKey (hillsboroughRecord a) "land_use_code" = some (.str "")) ∧
       (findKey a "ASSD_LND" = Option.none → findKey (hillsboroughRecord a) "assessed_land" = some (.int 0)) ∧
       (findKey a "ASSD_BLD" = Option.none → findKey (hillsboroughRecord a) "assessed_building" = some (.int 0)) ∧
       (findKey a "ASSD_TOT" = Option.none → findKey (hillsboroughRecord a) "assessed_total" = some (.int 0)) ∧
       (findKey a "PARVAL" = Option.none → findKey (hillsboroughRecord a) "market_value" = some (.int 0)) ∧
       (findKey a "SUBDIV_NM" = Option.none → findKey (hillsboroughRecord a) "subdivision" = some (.str "")) ∧
       (findKey a "BLOCK" = Option.none → findKey (hillsboroughRecord a) "block" = some (.str "")) ∧
       (findKey a "LOT" = Option.none → findKey (hillsboroughRecord a) "lot" = some (.str "")) ∧
       (findKey a "S_SECTION" = Option.none → findKey (hillsboroughRecord a) "section" = some (.str "")) ∧
       (findKey a "S_TOWNSHIP" = Option.none → findKey (hillsboroughRecord a) "township" = some (.str "")) ∧
       (findKey a "S_RANGE" = Option.none → findKey (hillsboroughRecord a) "range" = some (.str "")) ∧
       (findKey a "YRBLT_ACT" = Option.none → findKey (hillsboroughRecord a) "year_built" = some (.str "")) ∧
       (findKey a "NO_BULDNG" = Option.none → findKey (hillsboroughRecord a) "num_buildings" = some (.int 0)) ∧
       (findKey a "NO_RES_UNITS" = Option.none → findKey (hillsboroughRecord a) "num_units" = some (.int 0)) ∧
       (findKey a "TOT_LVG_AREA" = Option.none → findKey (hillsboroughRecord a) "total_living_area" = some (.int 0)) ∧
       (findKey a "SALE1_DATE" = Option.none → findKey (hillsboroughRecord a) "sale_date" = some (.str "")) ∧
       (findKey a "SALE1_AMT" = Option.none → findKey (hillsboroughRecord a) "sale_amount" = some (.int 0)) ∧
       (findKey a "PAWEBPAGE" = Option.none → findKey (hillsboroughRecord a) "parcel_link" = some (.str ""))) ∧
      ((findKey c "SITUSADD1" = Option.none → findKey c "SITEADD" = Option.none → findKey (pascoRecord c) "address" = some (.str "")) ∧
       (findKey c "SCITY" = Option.none → findKey (pascoRecord c) "city" = some (.str "")) ∧
       (findKey c "SZIP" = Option.none → findKey (pascoRecord c) "zip" = some (.str "")) ∧
       (findKey c "OWNERNAME" = Option.none → findKey (pascoRecord c) "owner" = some (.str "")) ∧
       (findKey c "OWNERADD1" = Option.none → findKey (pascoRecord c) "owner_address" = some (.str "")) ∧
       (findKey c "OWNERCITY" = Option.none → findKey (pascoRecord c) "owner_city" = some (.str "")) ∧
       (findKey c "OWNERSTATE" = Option.none → findKey (pascoRecord c) "owner_state" = some (.str "")) ∧
       (findKey c "OWNERZIP" = Option.none → findKey (pascoRecord c) "owner_zip" = some (.str "")) ∧
       (findKey c "LEGDECFULL" = Option.none → findKey (pascoRecord c) "legal_description" = some (.str "")) ∧
       (findKey c "LEGAL2" = Option.none → findKey (pascoRecord c) "legal_description2" = some (.str "")) ∧
       (findKey c "ACRES" = Option.none → findKey (pascoRecord c) "acres" = some (.int 0)) ∧
       (findKey c "AREANO" = Option.none → findKey (pascoRecord c) "area_sqft" = some (.int 0)) ∧
       (findKey c "ZONING" = Option.none → findKey (pascoRecord c) "zoning" = some (.str "Contact City/County for zoning info")) ∧
       (findKey c "PARUSEDESC" = Option.none → findKey (pascoRecord c) "land_use" = some (.str "")) ∧
       (findKey c "DOR4CODE" = Option.none → findKey (pascoRecord c) "land_use_code" = some (.str "")) ∧
       (findKey c "ASSD_LND" = Option.none → findKey (pascoRecord c) "assessed_land" = some (.int 0)) ∧
       (findKey c "ASSD_BLD" = Option.none → findKey (pascoRecord c) "assessed_building" = some (.int 0)) ∧
       (findKey c "ASSD_TOT" = Option.none → findKey (pascoRecord c) "assessed_total" = some (.int 0)) ∧
       (findKey c "PARVAL" = Option.none → findKey (pascoRecord c) "market_value" = some (.int 0)) ∧
       (findKey c "SUBDIV_NM" = Option.none → findKey (pascoRecord c) "subdivision" = some (.str "")) ∧
       (findKey c "BLOCK" = Option.none → findKey (pascoRecord c) "block" = some (.str "")) ∧
       (findKey c "LOT" = Option.none → findKey (pascoRecord c) "lot" = some (.str "")) ∧
       (findKey c "S_SECTION" = Option.none → findKey (pascoRecord c) "section" = some (.str "")) ∧
       (findKey c "S_TOWNSHIP" = Option.none → findKey (pascoRecord c) "township" = some (.str "")) ∧
       (findKey c "S_RANGE" = Option.none → findKey (pascoRecord c) "range" = some (.str "")) ∧
       (findKey c "YRBLT_ACT" = Option.none → findKey (pascoRecord c) "year_built" = some (.str "")) ∧
       (findKey c "NO_BULDNG" = Option.none → findKey (pascoRecord c) "num_buildings" = some (.int 0)) ∧
       (findKey c "NO_RES_UNITS" = Option.none → findKey (pascoRecord c) "num_units" = some (.int 0)) ∧
       (findKey c "TOT_LVG_AREA" = Option.none → findKey (pascoRecord c) "total_living_area" = some (.int 0)) ∧
       (findKey c "SALE1_DATE" = Option.none → findKey (pascoRecord c) "sale_date" = some (.str "")) ∧
       (findKey c "SALE1_AMT" = Option.none → findKey (pascoRecord c) "sale_amount" = some (.int 0)) ∧
       (findKey c "PAWEBPAGE" = Option.none → findKey (pascoRecord c) "parcel_link" = some (.str ""))) ∧
      ((findKey m "PRIMARY_ADDRESS" = Option.none → findKey (manateeRecord m) "address" = some (.str "")) ∧
       (findKey m "PROP_CITYNAME" = Option.none → findKey (manateeRecord m) "city" = some (.str "")) ∧
       (findKey m "PROP_ZIP" = Option.none → findKey (manateeRecord m) "zip" = some (.str "")) ∧
       (findKey m "OWNER" = Option.none → findKey (manateeRecord m) "owner" = some (.str "")) ∧
       (findKey m "MAILING_ADDRESS" = Option.none → findKey (manateeRecord m) "owner_address" = some (.str "")) ∧
       (findKey m "MAIL_CITY" = Option.none → findKey (manateeRecord m) "owner_city" = some (.str "")) ∧
       (findKey m "MAIL_STATE" = Option.none → findKey (manateeRecord m) "owner_state" = some (.str "")) ∧
       (findKey m "MAIL_ZIP" = Option.none → findKey (manateeRecord m) "owner_zip" = some (.str "")) ∧
       (findKey m "LEGAL_DESCRIPTION" = Option.none → findKey (manateeRecord m) "legal_description" = some (.str "")) ∧
       (findKey (manateeRecord m) "legal_description2" = some (.str "")) ∧
       (findKey m "ACRES" = Option.none → findKey (manateeRecord m) "acres" = some (.int 0)) ∧
       (findKey m "AREA_SQFT" = Option.none → findKey (manateeRecord m) "area_sqft" = some (.int 0)) ∧
       (findKey m "ZONING" = Option.none → findKey (manateeRecord m) "zoning" = some (.str "")) ∧
       (findKey m "FUTURE_LAND_USE" = Option.none → findKey (manateeRecord m) "land_use" = some (.str "")) ∧
       (findKey m "DOR_UC" = Option.none → findKey (manateeRecord m) "land_use_code" = some (.str "")) ∧
       (findKey m "LAND_VALUE" = Option.none → findKey (manateeRecord m) "assessed_land" = some (.int 0)) ∧
       (findKey m "BLDG_VALUE" = Option.none → findKey (manateeRecord m) "assessed_building" = some (.int 0)) ∧
       (findKey m "JUST_VALUE" = Option.none → findKey (manateeRecord m) "assessed_total" = some (.int 0)) ∧
       (findKey m "MARKET_VALUE" = Option.none → findKey (manateeRecord m) "market_value" = some (.int 0)) ∧
       (findKey m "SUBDIVISION" = Option.none → findKey (manateeRecord m) "subdivision" = some (.str "")) ∧
       (findKey m "BLOCK" = Option.none → findKey (manateeRecord m) "block" = some (.str "")) ∧
       (findKey m "LOT" = Option.none → findKey (manateeRecord m) "lot" = some (.str "")) ∧
       (findKey m "SECTION" = Option.none → findKey (manateeRecord m) "section" = some (.str "")) ∧
       (findKey m "TOWNSHIP" = Option.none → findKey (manateeRecord m) "township" = some (.str "")) ∧
       (findKey m "RANGE" = Option.none → findKey (manateeRecord m) "range" = some (.str "")) ∧
       (findKey m "YR_BLT" = Option.none → findKey (manateeRecord m) "year_built" = some (.str "")) ∧
       (findKey m "NO_BLDG" = Option.none → findKey (manateeRecord m) "num_buildings" = some (.int 0)) ∧
       (findKey m "NO_RES_UNTS" = Option.none → findKey (manateeRecord m) "num_units" = some (.int 0)) ∧
       (findKey m "TOT_LVG_AREA" = Option.none → findKey (manateeRecord m) "total_living_area" = some (.int 0)) ∧
       (findKey m "SALE_DATE" = Option.none → findKey (manateeRecord m) "sale_date" = some (.str "")) ∧
       (findKey m "SALE_PRC" = Option.none → findKey (manateeRecord m) "sale_amount" = some (.int 0)) ∧
       (findKey (manateeRecord m) "parcel_link" = some (.str ""))) ∧
      (findKey p "PGIS.PGIS.AccelaParcels.STATEDAREA" = Option.none →
        ∃ d, pinellasRecord p b pid = Except.ok d ∧
          ((findKey b "SITUSSTREET" = Option.none → findKey d "address" = some (.str "")) ∧
           (findKey p "PGIS.PGIS.AccelaParcels.JURISDICTION" = Option.none → findKey b "SITUSCITY" = Option.none → findKey d "city" = some (.str "")) ∧
           (findKey b "SITUSZIP" = Option.none → findKey d "zip" = some (.str "")) ∧
           (findKey b "OWNERNAME" = Option.none → findKey d "owner" = some (.str "")) ∧
           (findKey b "OWNERADD1" = Option.none → findKey d "owner_address" = some (.str "")) ∧
           (findKey b "OWNERCITY" = Option.none → findKey d "owner_city" = some (.str "")) ∧
           (findKey b "OWNERSTATE" = Option.none → findKey d "owner_state" = some (.str "")) ∧
           (findKey b "OWNERZIP" = Option.none → findKey d "owner_zip" = some (.str "")) ∧
           (findKey p "PGIS.PGIS.AccelaParcels.LEGAL" = Option.none → findKey b "LEGALDESC" = Option.none → findKey d "legal_description" = some (.str "")) ∧
           (findKey d "legal_description2" = some (.str "")) ∧
           (findKey d "acres" = some (.float (mkRat 0 1))) ∧
           (findKey d "area_sqft" = some (.int 0)) ∧
           (findKey p "PGIS.PGIS.AccelaParcels.ZONECLASS" = Option.none → findKey d "zoning" = some (.str "Contact jurisdiction")) ∧
           (findKey p "PGIS.PGIS.AccelaParcels.PROPOSEDLANDUSE" = Option.none → findKey d "land_use" = some (.str "")) ∧
           (findKey p "PGIS.PGIS.AccelaParcels.PAO_USECODE" = Option.none → findKey d "land_use_code" = some (.str "")) ∧
           (findKey b "LANDVAL" = Option.none → findKey d "assessed_land" = some (.int 0)) ∧
           (findKey b "BLDGVAL" = Option.none → findKey d "assessed_building" = some (.int 0)) ∧
           (findKey b "JUSTVAL" = Option.none → findKey d "assessed_total" = some (.int 0)) ∧
           (findKey b "ASMTVAL" = Option.none → findKey d "market_value" = some (.int 0)) ∧
           (findKey p "PGIS.PGIS.AccelaParcels.SUBDIVISION" = Option.none → findKey d "subdivision" = some (.str "")) ∧
           (findKey p "PGIS.PGIS.AccelaParcels.BK" = Option.none → findKey d "block" = some (.str "")) ∧
           (findKey p "PGIS.PGIS.AccelaParcels.LOT" = Option.none → findKey d "lot" = some (.str "")) ∧
           (findKey p "PGIS.PGIS.AccelaParcels.SC" = Option.none → findKey d "section" = some (.str "")) ∧
           (findKey p "PGIS.PGIS.AccelaParcels.TW" = Option.none → findKey d "township" = some (.str "")) ∧
           (findKey p "PGIS.PGIS.AccelaParcels.RG" = Option.none → findKey d "range" = some (.str "")) ∧
           (findKey b "YRBLT" = Option.none → findKey d "year_built" = some (.str "")) ∧
           (findKey b "BLDGCNT" = Option.none → findKey d "num_buildings" = some (.int 0)) ∧
           (findKey b "UNITS" = Option.none → findKey d "num_units" = some (.int 0)) ∧
           (findKey b "TOTLIVAREA" = Option.none → findKey d "total_living_area" = some (.int 0)) ∧
           (findKey b "SALEDT1" = Option.none → findKey d "sale_date" = some (.str "")) ∧
           (findKey b "SALEPRICE1" = Option.none → findKey d "sale_amount" = some (.int 0)) ∧
           (findKey p "PGIS.PGIS.AccelaParcels.FLOOD_ZONE" = Option.none → findKey d "fema_flood_zone" = some (.str "")))) := by
  intro a c m p b pid
  refine ⟨?_, ?_, ?_, ?_⟩
  · refine ⟨?_, ?_, ?_, ?_, ?_, ?_, ?_, ?_, ?_, ?_, ?_, ?_, ?_, ?_, ?_, ?_, ?_, ?_, ?_, ?_, ?_, ?_, ?_, ?_, ?_, ?_, ?_, ?_, ?_, ?_, ?_, ?_⟩
    · intro h1
      have e : findKey (hillsboroughRecord a) "address" = some (getAttr a "SITUSADD1" (.str "")) := rfl
      rw [e, getAttr_of_none a "SITUSADD1" (.str "") h1]
    · intro h1
      have e : findKey (hillsboroughRecord a) "city" = some (getAttr a "SCITY" (.str "TAMPA")) := rfl
      rw [e, getAttr_of_none a "SCITY" (.str "TAMPA") h1]
    · intro h1
      have e : findKey (hillsboroughRecord a) "zip" = some (getAttr a "SZIP" (.str "")) := rfl
      rw [e, getAttr_of_none a "SZIP" (.str "") h1]
    · intro h1
      have e : findKey (hillsboroughRecord a) "owner" = some (getAttr a "OWNERNAME" (.str "")) := rfl
      rw [e, getAttr_of_none a "OWNERNAME" (.str "") h1]
    · intro h1
      have e : findKey (hillsboroughRecord a) "owner_address" = some (getAttr a "OWNERADD1" (.str "")) := rfl
      rw [e, getAttr_of_none a "OWNERADD1" (.str "") h1]
    · intro h1
      have e : findKey (hillsboroughRecord a) "owner_city" = some (getAttr a "OWNERCITY" (.str "")) := rfl
      rw [e, getAttr_of_none a "OWNERCITY" (.str "") h1]
    · intro h1
      have e : findKey (hillsboroughRecord a) "owner_state" = some (getAttr a "OWNERSTATE" (.str "")) := rfl
      rw [e, getAttr_of_none a "OWNERSTATE" (.str "") h1]
    · intro h1
      have e : findKey (hillsboroughRecord a) "owner_zip" = some (getAttr a "OWNERZIP" (.str "")) := rfl
      rw [e, getAttr_of_none a "OWNERZIP" (.str "") h1]
    · intro h1
      have e : findKey (hillsboroughRecord a) "legal_description" = some (getAttr a "LEGDECFULL" (.str "")) := rfl
      rw [e, getAttr_of_none a "LEGDECFULL" (.str "") h1]
    · intro h1
      have e : findKey (hillsboroughRecord a) "legal_description2" = some (getAttr a "LEGAL2" (.str "")) := rfl
      rw [e, getAttr_of_none a "LEGAL2" (.str "") h1]
    · intro h1
      have e : findKey (hillsboroughRecord a) "acres" = some (getAttr a "ACRES" (.int 0)) := rfl
      rw [e, getAttr_of_none a "ACRES" (.int 0) h1]
    · intro h1
      have e : findKey (hillsboroughRecord a) "area_sqft" = some (getAttr a "AREANO" (.int 0)) := rfl
      rw [e, getAttr_of_none a "AREANO" (.int 0) h1]
    · intro h1
      have e : findKey (hillsboroughRecord a) "zoning" = some (getAttr a "ZONING" (.str "Contact City/County for zoning info")) := rfl
      rw [e, getAttr_of_none a "ZONING" (.str "Contact City/County for zoning info") h1]
    · intro h1
      have e : findKey (hillsboroughRecord a) "land_use" = some (getAttr a "PARUSEDESC" (.str "")) := rfl
      rw [e, getAttr_of_none a "PARUSEDESC" (.str "") h1]
    · intro h1
      have e : findKey (hillsboroughRecord a) "land_use_code" = some (getAttr a "DOR4CODE" (.str "")) := rfl
      rw [e, getAttr_of_none a "DOR4CODE" (.str "") h1]
    · intro h1
      have e : findKey (hillsboroughRecord a) "assessed_land" = some (getAttr a "ASSD_LND" (.int 0)) := rfl
      rw [e, getAttr_of_none a "ASSD_LND" (.int 0) h1]
    · intro h1
      have e : findKey (hillsboroughRecord a) "assessed_building" = some (getAttr a "ASSD_BLD" (.int 0)) := rfl
      rw [e, getAttr_of_none a "ASSD_BLD" (.int 0) h1]
    · intro h1
      have e : findKey (hillsboroughRecord a) "assessed_total" = some (getAttr a "ASSD_TOT" (.int 0)) := rfl
      rw [e, getAttr_of_none a "ASSD_TOT" (.int 0) h1]
    · intro h1
      have e : findKey (hillsboroughRecord a) "market_value" = some (getAttr a "PARVAL" (.int 0)) := rfl
      rw [e, getAttr_of_none a "PARVAL" (.int 0) h1]
    · intro h1
      have e : findKey (hillsboroughRecord a) "subdivision" = some (getAttr a "SUBDIV_NM" (.str "")) := rfl
      rw [e, getAttr_of_none a "SUBDIV_NM" (.str "") h1]
    · intro h1
      have e : findKey (hillsboroughRecord a) "block" = some (getAttr a "BLOCK" (.str "")) := rfl
      rw [e, getAttr_of_none a "BLOCK" (.str "") h1]
    · intro h1
      have e : findKey (hillsboroughRecord a) "lot" = some (getAttr a "LOT" (.str "")) := rfl
      rw [e, getAttr_of_none a "LOT" (.str "") h1]
    · intro h1
      have e : findKey (hillsboroughRecord a) "section" = some (getAttr a "S_SECTION" (.str "")) := rfl
      rw [e, getAttr_of_none a "S_SECTION" (.str "") h1]
    · intro h1
      have e : findKey (hillsboroughRecord a) "township" = some (getAttr a "S_TOWNSHIP" (.str "")) := rfl
      rw [e, getAttr_of_none a "S_TOWNSHIP" (.str "") h1]
    · intro h1
      have e : findKey (hillsboroughRecord a) "range" = some (getAttr a "S_RANGE" (.str "")) := rfl
      rw [e, getAttr_of_none a "S_RANGE" (.str "") h1]
    · intro h1
      have e : findKey (hillsboroughRecord a) "year_built" = some (getAttr a "YRBLT_ACT" (.str "")) := rfl
      rw [e, getAttr_of_none a "YRBLT_ACT" (.str "") h1]
    · intro h1
      have e : findKey (hillsboroughRecord a) "num_buildings" = some (getAttr a "NO_BULDNG" (.int 0)) := rfl
      rw [e, getAttr_of_none a "NO_BULDNG" (.int 0) h1]
    · intro h1
      have e : findKey (hillsboroughRecord a) "num_units" = some (getAttr a "NO_RES_UNITS" (.int 0)) := rfl
      rw [e, getAttr_of_none a "NO_RES_UNITS" (.int 0) h1]
    · intro h1
      have e : findKey (hillsboroughRecord a) "total_living_area" = some (getAttr a "TOT_LVG_AREA" (.int 0)) := rfl
      rw [e, getAttr_of_none a "TOT_LVG_AREA" (.int 0) h1]
    · intro h1
      have e : findKey (hillsboroughRecord a) "sale_date" = some (getAttr a "SALE1_DATE" (.str "")) := rfl
      rw [e, getAttr_of_none a "SALE1_DATE" (.str "") h1]
    · intro h1
      have e : findKey (hillsboroughRecord a) "sale_amount" = some (getAttr a "SALE1_AMT" (.int 0)) := rfl
      rw [e, getAttr_of_none a "SALE1_AMT" (.int 0) h1]
    · intro h1
      have e : findKey (hillsboroughRecord a) "parcel_link" = some (getAttr a "PAWEBPAGE" (.str "")) := rfl
      rw [e, getAttr_of_none a "PAWEBPAGE" (.str "") h1]
  · refine ⟨?_, ?_, ?_, ?_, ?_, ?_, ?_, ?_, ?_, ?_, ?_, ?_, ?_, ?_, ?_, ?_, ?_, ?_, ?_, ?_, ?_, ?_, ?_, ?_, ?_, ?_, ?_, ?_, ?_, ?_, ?_, ?_⟩
    · intro h1 h2
      have e : findKey (pascoRecord c) "address" =
          some (pyOr (getAttr c "SITUSADD1" (.str "")) (getAttr c "SITEADD" (.str ""))) := rfl
      rw [e, getAttr_of_none c "SITUSADD1" (.str "") h1, getAttr_of_none c "SITEADD" (.str "") h2]
      rfl
    · intro h1
      have e : findKey (pascoRecord c) "city" = some (getAttr c "SCITY" (.str "")) := rfl
      rw [e, getAttr_of_none c "SCITY" (.str "") h1]
    · intro h1
      have e : findKey (pascoRecord c) "zip" = some (getAttr c "SZIP" (.str "")) := rfl
      rw [e, getAttr_of_none c "SZIP" (.str "") h1]
    · intro h1
      have e : findKey (pascoRecord c) "owner" = some (getAttr c "OWNERNAME" (.str "")) := rfl
      rw [e, getAttr_of_none c "OWNERNAME" (.str "") h1]
    · intro h1
      have e : findKey (pascoRecord c) "owner_address" = some (getAttr c "OWNERADD1" (.str "")) := rfl
      rw [e, getAttr_of_none c "OWNERADD1" (.str "") h1]
    · intro h1
      have e : findKey (pascoRecord c) "owner_city" = some (getAttr c "OWNERCITY" (.str "")) := rfl
      rw [e, getAttr_of_none c "OWNERCITY" (.str "") h1]
    · intro h1
      have e : findKey (pascoRecord c) "owner_state" = some (getAttr c "OWNERSTATE" (.str "")) := rfl
      rw [e, getAttr_of_none c "OWNERSTATE" (.str "") h1]
    · intro h1
      have e : findKey (pascoRecord c) "owner_zip" = some (getAttr c "OWNERZIP" (.str "")) := rfl
      rw [e, getAttr_of_none c "OWNERZIP" (.str "") h1]
    · intro h1
      have e : findKey (pascoRecord c) "legal_description" = some (getAttr c "LEGDECFULL" (.str "")) := rfl
      rw [e, getAttr_of_none c "LEGDECFULL" (.str "") h1]
    · intro h1
      have e : findKey (pascoRecord c) "legal_description2" = some (getAttr c "LEGAL2" (.str "")) := rfl
      rw [e, getAttr_of_none c "LEGAL2" (.str "") h1]
    · intro h1
      have e : findKey (pascoRecord c) "acres" = some (getAttr c "ACRES" (.int 0)) := rfl
      rw [e, getAttr_of_none c "ACRES" (.int 0) h1]
    · intro h1
      have e : findKey (pascoRecord c) "area_sqft" = some (getAttr c "AREANO" (.int 0)) := rfl
      rw [e, getAttr_of_none c "AREANO" (.int 0) h1]
    · intro h1
      have e : findKey (pascoRecord c) "zoning" = some (getAttr c "ZONING" (.str "Contact City/County for zoning info")) := rfl
      rw [e, getAttr_of_none c "ZONING" (.str "Contact City/County for zoning info") h1]
    · intro h1
      have e : findKey (pascoRecord c) "land_use" = some (getAttr c "PARUSEDESC" (.str "")) := rfl
      rw [e, getAttr_of_none c "PARUSEDESC" (.str "") h1]
    · intro h1
      have e : findKey (pascoRecord c) "land_use_code" = some (getAttr c "DOR4CODE" (.str "")) := rfl
      rw [e, getAttr_of_none c "DOR4CODE" (.str "") h1]
    · intro h1
      have e : findKey (pascoRecord c) "assessed_land" = some (getAttr c "ASSD_LND" (.int 0)) := rfl
      rw [e, getAttr_of_none c "ASSD_LND" (.int 0) h1]
    · intro h1
      have e : findKey (pascoRecord c) "assessed_building" = some (getAttr c "ASSD_BLD" (.int 0)) := rfl
      rw [e, getAttr_of_none c "ASSD_BLD" (.int 0) h1]
    · intro h1
      have e : findKey (pascoRecord c) "assessed_total" = some (getAttr c "ASSD_TOT" (.int 0)) := rfl
      rw [e, getAttr_of_none c "ASSD_TOT" (.int 0) h1]
    · intro h1
      have e : findKey (pascoRecord c) "market_value" = some (getAttr c "PARVAL" (.int 0)) := rfl
      rw [e, getAttr_of_none c "PARVAL" (.int 0) h1]
    · intro h1
      have e : findKey (pascoRecord c) "subdivision" = some (getAttr c "SUBDIV_NM" (.str "")) := rfl
      rw [e, getAttr_of_none c "SUBDIV_NM" (.str "") h1]
    · intro h1
      have e : findKey (pascoRecord c) "block" = some (getAttr c "BLOCK" (.str "")) := rfl
      rw [e, getAttr_of_none c "BLOCK" (.str "") h1]
    · intro h1
      have e : findKey (pascoRecord c) "lot" = some (getAttr c "LOT" (.str "")) := rfl
      rw [e, getAttr_of_none c "LOT" (.str "") h1]
    · intro h1
      have e : findKey (pascoRecord c) "section" = some (getAttr c "S_SECTION" (.str "")) := rfl
      rw [e, getAttr_of_none c "S_SECTION" (.str "") h1]
    · intro h1
      have e : findKey (pascoRecord c) "township" = some (getAttr c "S_TOWNSHIP" (.str "")) := rfl
      rw [e, getAttr_of_none c "S_TOWNSHIP" (.str "") h1]
    · intro h1
      have e : findKey (pascoRecord c) "range" = some (getAttr c "S_RANGE" (.str "")) := rfl
      rw [e, getAttr_of_none c "S_RANGE" (.str "") h1]
    · intro h1
      have e : findKey (pascoRecord c) "year_built" = some (getAttr c "YRBLT_ACT" (.str "")) := rfl
      rw [e, getAttr_of_none c "YRBLT_ACT" (.str "") h1]
    · intro h1
      have e : findKey (pascoRecord c) "num_buildings" = some (getAttr c "NO_BULDNG" (.int 0)) := rfl
      rw [e, getAttr_of_none c "NO_BULDNG" (.int 0) h1]
    · intro h1
      have e : findKey (pascoRecord c) "num_units" = some (getAttr c "NO_RES_UNITS" (.int 0)) := rfl
      rw [e, getAttr_of_none c "NO_RES_UNITS" (.int 0) h1]
    · intro h1
      have e : findKey (pascoRecord c) "total_living_area" = some (getAttr c "TOT_LVG_AREA" (.int 0)) := rfl
      rw [e, getAttr_of_none c "TOT_LVG_AREA" (.int 0) h1]
    · intro h1
      have e : findKey (pascoRecord c) "sale_date" = some (getAttr c "SALE1_DATE" (.str "")) := rfl
      rw [e, getAttr_of_none c "SALE1_DATE" (.str "") h1]
    · intro h1
      have e : findKey (pascoRecord c) "sale_amount" = some (getAttr c "SALE1_AMT" (.int 0)) := rfl
      rw [e, getAttr_of_none c "SALE1_AMT" (.int 0) h1]
    · intro h1
      have e : findKey (pascoRecord c) "parcel_link" = some (getAttr c "PAWEBPAGE" (.str "")) := rfl
      rw [e, getAttr_of_none c "PAWEBPAGE" (.str "") h1]
  · refine ⟨?_, ?_, ?_, ?_, ?_, ?_, ?_, ?_, ?_, ?_, ?_, ?_, ?_, ?_, ?_, ?_, ?_, ?_, ?_, ?_, ?_, ?_, ?_, ?_, ?_, ?_, ?_, ?_, ?_, ?_, ?_, ?_⟩
    · intro h1
      have e : findKey (manateeRecord m) "address" = some (getAttr m "PRIMARY_ADDRESS" (.str "")) := rfl
      rw [e, getAttr_of_none m "PRIMARY_ADDRESS" (.str "") h1]
    · intro h1
      have e : findKey (manateeRecord m) "city" = some (getAttr m "PROP_CITYNAME" (.str "")) := rfl
      rw [e, getAttr_of_none m "PROP_CITYNAME" (.str "") h1]
    · intro h1
      have e : findKey (manateeRecord m) "zip" = some (getAttr m "PROP_ZIP" (.str "")) := rfl
      rw [e, getAttr_of_none m "PROP_ZIP" (.str "") h1]
    · intro h1
      have e : findKey (manateeRecord m) "owner" = some (getAttr m "OWNER" (.str "")) := rfl
      rw [e, getAttr_of_none m "OWNER" (.str "") h1]
    · intro h1
      have e : findKey (manateeRecord m) "owner_address" = some (getAttr m "MAILING_ADDRESS" (.str "")) := rfl
      rw [e, getAttr_of_none m "MAILING_ADDRESS" (.str "") h1]
    · intro h1
      have e : findKey (manateeRecord m) "owner_city" = some (getAttr m "MAIL_CITY" (.str "")) := rfl
      rw [e, getAttr_of_none m "MAIL_CITY" (.str "") h1]
    · intro h1
      have e : findKey (manateeRecord m) "owner_state" = some (getAttr m "MAIL_STATE" (.str "")) := rfl
      rw [e, getAttr_of_none m "MAIL_STATE" (.str "") h1]
    · intro h1
      have e : findKey (manateeRecord m) "owner_zip" = some (getAttr m "MAIL_ZIP" (.str "")) := rfl
      rw [e, getAttr_of_none m "MAIL_ZIP" (.str "") h1]
    · intro h1
      have e : findKey (manateeRecord m) "legal_description" = some (getAttr m "LEGAL_DESCRIPTION" (.str "")) := rfl
      rw [e, getAttr_of_none m "LEGAL_DESCRIPTION" (.str "") h1]
    · rfl
    · intro h1
      have e : findKey (manateeRecord m) "acres" = some (getAttr m "ACRES" (.int 0)) := rfl
      rw [e, getAttr_of_none m "ACRES" (.int 0) h1]
    · intro h1
      have e : findKey (manateeRecord m) "area_sqft" = some (getAttr m "AREA_SQFT" (.int 0)) := rfl
      rw [e, getAttr_of_none m "AREA_SQFT" (.int 0) h1]
    · intro h1
      have e : findKey (manateeRecord m) "zoning" = some (getAttr m "ZONING" (.str "")) := rfl
      rw [e, getAttr_of_none m "ZONING" (.str "") h1]
    · intro h1
      have e : findKey (manateeRecord m) "land_use" = some (getAttr m "FUTURE_LAND_USE" (.str "")) := rfl
      rw [e, getAttr_of_none m "FUTURE_LAND_USE" (.str "") h1]
    · intro h1
      have e : findKey (manateeRecord m) "land_use_code" = some (getAttr m "DOR_UC" (.str "")) := rfl
      rw [e, getAttr_of_none m "DOR_UC" (.str "") h1]
    · intro h1
      have e : findKey (manateeRecord m) "assessed_land" = some (getAttr m "LAND_VALUE" (.int 0)) := rfl
      rw [e, getAttr_of_none m "LAND_VALUE" (.int 0) h1]
    · intro h1
      have e : findKey (manateeRecord m) "assessed_building" = some (getAttr m "BLDG_VALUE" (.int 0)) := rfl
      rw [e, getAttr_of_none m "BLDG_VALUE" (.int 0) h1]
    · intro h1
      have e : findKey (manateeRecord m) "assessed_total" = some (getAttr m "JUST_VALUE" (.int 0)) := rfl
      rw [e, getAttr_of_none m "JUST_VALUE" (.int 0) h1]
    · intro h1
      have e : findKey (manateeRecord m) "market_value" = some (getAttr m "MARKET_VALUE" (.int 0)) := rfl
      rw [e, getAttr_of_none m "MARKET_VALUE" (.int 0) h1]
    · intro h1
      have e : findKey (manateeRecord m) "subdivision" = some (getAttr m "SUBDIVISION" (.str "")) := rfl
      rw [e, getAttr_of_none m "SUBDIVISION" (.str "") h1]
    · intro h1
      have e : findKey (manateeRecord m) "block" = some (getAttr m "BLOCK" (.str "")) := rfl
      rw [e, getAttr_of_none m "BLOCK" (.str "") h1]
    · intro h1
      have e : findKey (manateeRecord m) "lot" = some (getAttr m "LOT" (.str "")) := rfl
      rw [e, getAttr_of_none m "LOT" (.str "") h1]
    · intro h1
      have e : findKey (manateeRecord m) "section" = some (getAttr m "SECTION" (.str "")) := rfl
      rw [e, getAttr_of_none m "SECTION" (.str "") h1]
    · intro h1
      have e : findKey (manateeRecord m) "township" = some (getAttr m "TOWNSHIP" (.str "")) := rfl
      rw [e, getAttr_of_none m "TOWNSHIP" (.str "") h1]
    · intro h1
      have e : findKey (manateeRecord m) "range" = some (getAttr m "RANGE" (.str "")) := rfl
      rw [e, getAttr_of_none m "RANGE" (.str "") h1]
    · intro h1
      have e : findKey (manateeRecord m) "year_built" = some (getAttr m "YR_BLT" (.str "")) := rfl
      rw [e, getAttr_of_none m "YR_BLT" (.str "") h1]
    · intro h1
      have e : findKey (manateeRecord m) "num_buildings" = some (getAttr m "NO_BLDG" (.int 0)) := rfl
      rw [e, getAttr_of_none m "NO_BLDG" (.int 0) h1]
    · intro h1
      have e : findKey (manateeRecord m) "num_units" = some (getAttr m "NO_RES_UNTS" (.int 0)) := rfl
      rw [e, getAttr_of_none m "NO_RES_UNTS" (.int 0) h1]
    · intro h1
      have e : findKey (manateeRecord m) "total_living_area" = some (getAttr m "TOT_LVG_AREA" (.int 0)) := rfl
      rw [e, getAttr_of_none m "TOT_LVG_AREA" (.int 0) h1]
    · intro h1
      have e : findKey (manateeRecord m) "sale_date" = some (getAttr m "SALE_DATE" (.str "")) := rfl
      rw [e, getAttr_of_none m "SALE_DATE" (.str "") h1]
    · intro h1
      have e : findKey (manateeRecord m) "sale_amount" = some (getAttr m "SALE_PRC" (.int 0)) := rfl
      rw [e, getAttr_of_none m "SALE_PRC" (.int 0) h1]
    · rfl
  · intro hSA
    have hs : statedAcres (getAttr p "PGIS.PGIS.AccelaParcels.STATEDAREA" (.str "0")) =
        Except.ok (mkRat 0 1) := by
      rw [getAttr_of_none p "PGIS.PGIS.AccelaParcels.STATEDAREA" (.str "0") hSA]
      decide
    unfold pinellasRecord
    simp only [hs]
    refine ⟨_, rfl, ?_, ?_, ?_, ?_, ?_, ?_, ?_, ?_, ?_, ?_, ?_, ?_, ?_, ?_, ?_, ?_, ?_, ?_, ?_, ?_, ?_, ?_, ?_, ?_, ?_, ?_, ?_, ?_, ?_, ?_, ?_, ?_⟩
    · intro h1
      rw [getAttr_of_none b "SITUSSTREET" (.str "") h1]
      rfl
    · intro h1 h2
      rw [getAttr_of_none p "PGIS.PGIS.AccelaParcels.JURISDICTION" (.str "") h1, getAttr_of_none b "SITUSCITY" (.str "") h2]
      rfl
    · intro h1
      rw [getAttr_of_none b "SITUSZIP" (.str "") h1]
      rfl
    · intro h1
      rw [getAttr_of_none b "OWNERNAME" (.str "") h1]
      rfl
    · intro h1
      rw [getAttr_of_none b "OWNERADD1" (.str "") h1]
      rfl
    · intro h1
      rw [getAttr_of_none b "OWNERCITY" (.str "") h1]
      rfl
    · intro h1
      rw [getAttr_of_none b "OWNERSTATE" (.str "") h1]
      rfl
    · intro h1
      rw [getAttr_of_none b "OWNERZIP" (.str "") h1]
      rfl
    · intro h1 h2
      rw [getAttr_of_none p "PGIS.PGIS.AccelaParcels.LEGAL" (.str "") h1, getAttr_of_none b "LEGALDESC" (.str "") h2]
      rfl
    · rfl
    · rfl
    · rfl
    · intro h1
      rw [getAttr_of_none p "PGIS.PGIS.AccelaParcels.ZONECLASS" (.str "Contact jurisdiction") h1]
      rfl
    · intro h1
      rw [getAttr_of_none p "PGIS.PGIS.AccelaParcels.PROPOSEDLANDUSE" (.str "") h1]
      rfl
    · intro h1
      rw [getAttr_of_none p "PGIS.PGIS.AccelaParcels.PAO_USECODE" (.str "") h1]
      rfl
    · intro h1
      rw [getAttr_of_none b "LANDVAL" (.int 0) h1]
      rfl
    · intro h1
      rw [getAttr_of_none b "BLDGVAL" (.int 0) h1]
      rfl
    · intro h1
      rw [getAttr_of_none b "JUSTVAL" (.int 0) h1]
      rfl
    · intro h1
      rw [getAttr_of_none b "ASMTVAL" (.int 0) h1]
      rfl
    · intro h1
      rw [getAttr_of_none p "PGIS.PGIS.AccelaParcels.SUBDIVISION" (.str "") h1]
      rfl
    · intro h1
      rw [getAttr_of_none p "PGIS.PGIS.AccelaParcels.BK" (.str "") h1]
      rfl
    · intro h1
      rw [getAttr_of_none p "PGIS.PGIS.AccelaParcels.LOT" (.str "") h1]
      rfl
    · intro h1
      rw [getAttr_of_none p "PGIS.PGIS.AccelaParcels.SC" (.str "") h1]
      rfl
    · intro h1
      rw [getAttr_of_none p "PGIS.PGIS.AccelaParcels.TW" (.str "") h1]
      rfl
    · intro h1
      rw [getAttr_of_none p "PGIS.PGIS.AccelaParcels.RG" (.str "") h1]
      rfl
    · intro h1
      rw [getAttr_of_none b "YRBLT" (.str "") h1]
      rfl
    · intro h1
      rw [getAttr_of_none b "BLDGCNT" (.int 0) h1]
      rfl
    · intro h1
      rw [getAttr_of_none b "UNITS" (.int 0) h1]
      rfl
    · intro h1
      rw [getAttr_of_none b "TOTLIVAREA" (.int 0) h1]
      rfl
    · intro h1
      rw [getAttr_of_none b "SALEDT1" (.str "") h1]
      rfl
    · intro h1
      rw [getAttr_of_none b "SALEPRICE1" (.int 0) h1]
      rfl
    · intro h1
      rw [getAttr_of_none p "PGIS.PGIS.AccelaParcels.FLOOD_ZONE" (.str "") h1]
      rfl

theorem c2_defaults_amended_witness :
    findKey (hillsboroughRecord []) "city" = some (.str "TAMPA") ∧
    findKey (hillsboroughRecord []) "zoning" =
      some (.str "Contact City/County for zoning info") ∧
    findKey (pascoRecord []) "zoning" =
      some (.str "Contact City/County for zoning info") ∧
    findKey (manateeRecord []) "zoning" = some (.str "") ∧
    ∃ d, pinellasRecord [] [] "x" = Except.ok d ∧
      findKey d "zoning" = some (.str "Contact jurisdiction") ∧
      findKey d "acres" = some (.float (mkRat 0 1)) := by
  obtain ⟨hH, hC, hM, hP⟩ := c2_defaults_amended [] [] [] [] [] "x"
  obtain ⟨_, hHcity, _, _, _, _, _, _, _, _, _, _, hHzon, _⟩ := hH
  obtain ⟨_, _, _, _, _, _, _, _, _, _, _, _, hCzon, _⟩ := hC
  obtain ⟨_, _, _, _, _, _, _, _, _, _, _, _, hMzon, _⟩ := hM
  obtain ⟨d, hok, hdc⟩ := hP rfl
  obtain ⟨_, _, _, _, _, _, _, _, _, _, hacres, _, hPzon, _⟩ := hdc
  exact ⟨hHcity rfl, hHzon rfl, hCzon rfl, hMzon rfl, d, hok, hPzon rfl, hacres⟩
